import Mathlib

/-!
Verification of the BullsEyeDryFire backend authentication core against its
natural-language specification.  The definitions below are a shallow
embedding of the TypeScript source:

* `src/features/auth/service/auth.service.ts`   — `AuthService` operations
* `src/features/auth/validation/auth.validations.ts` (second half)
                                                 — `AuthRepository`
* `src/middlewares/auth.middleware.ts`           — `authenticate`
* the prisma `$extends` hooks (soft-delete rewrite, password hashing on
  `user.create` / `user.update`)

Timestamps are `Nat` milliseconds (`Date.now()`); JWT `iat`/`exp` claims are
seconds, as in the source.  Randomness (OTP codes, generated ids, random
suffixes) and external effects (email transport, Firebase verification) are
passed in as explicit parameters.  The cache is a TTL'd association list;
the distinct `makeKey` namespaces (`user:<id>`, `user:email:<e>`,
`otp:<type>:<email>`, `blacklist:token:<t>`, `auth:user:<id>`) are modelled
as separate maps, which is faithful because the namespaces cannot collide.
-/

/-! ## Enumerations (prisma schema) -/

inductive Role
  | USER
  | ADMIN
deriving DecidableEq, Repr

inductive UserType
  | GUEST
  | REGISTERED
deriving DecidableEq, Repr

inductive SignupMethod
  | EMAIL
  | GOOGLE
deriving DecidableEq, Repr

/-- The `type` field of verify-otp / resend-otp payloads. -/
inductive OtpType
  | emailVerification
  | forgotPassword
deriving DecidableEq, Repr

/-! ## Tokens -/

inductive TokKind
  | access
  | refresh
deriving DecidableEq, Repr

/-- A signed JWT, modelled by its claims.  `iat`/`exp` are in seconds.
Signing is tamper-evident, not encrypting, so the claims themselves stand
for the token string; `kind` stands for the distinct access/refresh
signing secrets. -/
structure Jwt where
  kind : TokKind
  id : String
  email : String
  role : Role
  iat : Nat
  exp : Nat
deriving DecidableEq, Repr

structure TokenPair where
  accessToken : Jwt
  refreshToken : Jwt
deriving DecidableEq, Repr

structure TokenPayload where
  id : String
  email : String
  role : Role
deriving DecidableEq, Repr

/-- Modelled from the spec: Token Service §4.2 — the access token is
"short-lived ... e.g. minutes-to-hours"; its jwt util is not under src/. -/
def accessTokenTtlSec : Nat := 60 * 60

/-- Modelled from the spec: Token Service §4.2 — the refresh token is
"long-lived ... e.g. days-to-weeks"; its jwt util is not under src/. -/
def refreshTokenTtlSec : Nat := 7 * 24 * 60 * 60

/-- Modelled from the spec: Token Service §4.2
`issue(payload={id,email,role}) → {accessToken, refreshToken}`,
"both cryptographically signed with a server secret".  The jwt utils are
not under src/; tokens carry the payload plus `iat`/`exp` claims. -/
def generateTokens (p : TokenPayload) (now : Nat) : TokenPair :=
  { accessToken :=
      { kind := .access, id := p.id, email := p.email, role := p.role
        iat := now / 1000, exp := now / 1000 + accessTokenTtlSec }
    refreshToken :=
      { kind := .refresh, id := p.id, email := p.email, role := p.role
        iat := now / 1000, exp := now / 1000 + refreshTokenTtlSec } }

/-- Modelled from the spec: Token Service §4.2 `verifyRefresh(token)` —
"decoded payload or fails with an invalid-token error (expired, malformed,
or bad signature are all reported as one generic kind)".  The util is not
under src/.  A jwt is expired when `floor(now/1000) >= exp`. -/
def verifyRefreshToken (t : Jwt) (now : Nat) : Except String Jwt :=
  if t.kind = TokKind.refresh ∧ now / 1000 < t.exp then Except.ok t
  else Except.error "jwt invalid or expired"

/-- Modelled from the spec: Token Service §4.2 `verifyAccess(token)`; the
util is not under src/. -/
def verifyToken (t : Jwt) (now : Nat) : Except String Jwt :=
  if t.kind = TokKind.access ∧ now / 1000 < t.exp then Except.ok t
  else Except.error "jwt invalid or expired"

/-! ## Password hashing -/

/-- Modelled from the spec: "password is always a one-way hash at rest";
the bcrypt util is not under src/.  Deterministic stand-in: prefixing keeps
the hash injective and distinct from every plaintext, which is all the
claims use (bcrypt's salt does not affect any claim here). -/
def hashPassword (p : String) : String := "$2b$10$" ++ p

/-- Modelled from the spec: the bcrypt compare util is not under src/.
`comparePassword plain hashed` holds iff `hashed` is the hash of `plain`. -/
def comparePassword (plain hashed : String) : Bool :=
  hashed == hashPassword plain

/-! ## Users (prisma `User` model, fields used by the auth core) -/

structure User where
  id : String
  username : String
  email : String
  phone : Option String := none
  password : String
  role : Role := .USER
  userType : UserType := .REGISTERED
  signupMethod : SignupMethod := .EMAIL
  isEmailVerified : Bool := false
  isActive : Bool := true
  isDeleted : Bool := false
  deletedAt : Option Nat := none
  otpCode : Option String := none
  otpExpiresAt : Option Nat := none
  refreshToken : Option Jwt := none
  profilePicture : Option String := none
deriving DecidableEq, Repr

/-- The sanitized projection the middleware caches and attaches to the
request (`auth.middleware.ts`, the `cachedUser` literal). -/
structure SessionUser where
  id : String
  username : String
  email : String
  role : Role
  userType : UserType
  isEmailVerified : Bool
  isActive : Bool
deriving DecidableEq, Repr

/-! ## TTL cache

`cacheSet key value ttlSeconds` stores an absolute expiry of
`now + ttl*1000` ms; `cacheGet` returns the value while `now` is before the
expiry, like the Redis-backed cache util. -/

def tget {κ α : Type} [DecidableEq κ] (m : List (κ × α × Nat)) (now : Nat)
    (k : κ) : Option α :=
  match m.find? (fun e => decide (e.1 = k)) with
  | some e => if now < e.2.2 then some e.2.1 else none
  | none => none

def tset {κ α : Type} [DecidableEq κ] (m : List (κ × α × Nat)) (now : Nat)
    (ttlSec : Nat) (k : κ) (v : α) : List (κ × α × Nat) :=
  (k, v, now + ttlSec * 1000) :: m.filter (fun e => decide (e.1 ≠ k))

def tdel {κ α : Type} [DecidableEq κ] (m : List (κ × α × Nat)) (k : κ) :
    List (κ × α × Nat) :=
  m.filter (fun e => decide (e.1 ≠ k))

/-- One map per `makeKey` namespace of the shared cache store. -/
structure CacheState where
  userById : List (String × User × Nat) := []
  userByEmail : List (String × User × Nat) := []
  otp : List ((OtpType × String) × String × Nat) := []
  blacklist : List (Jwt × String × Nat) := []
  authUser : List (String × SessionUser × Nat) := []
deriving DecidableEq, Repr

/-- Whole-system state: the user table plus the cache store. -/
structure SysState where
  users : List User := []
  cache : CacheState := {}
deriving DecidableEq, Repr

/-! ## Errors (`AppError` of `error.util.ts`) -/

inductive ErrKind
  | badRequest
  | unauthorized
  | forbidden
  | notFound
  | conflict
  | unprocessable
  | internal
  | jwtError
deriving DecidableEq, Repr

/-- An `AppError`: kind (maps to the HTTP status), message and field-level
detail list.  `jwtError` stands for a raw jsonwebtoken exception escaping
uncaught (the global handler turns it into a 500). -/
structure Err where
  kind : ErrKind
  message : String
  errors : List (String × String) := []
deriving DecidableEq, Repr

def AppError.badRequest (msg : String) (es : List (String × String) := []) :
    Err := { kind := .badRequest, message := msg, errors := es }

def AppError.unauthorized (msg : String)
    (es : List (String × String) := []) : Err :=
  { kind := .unauthorized, message := msg, errors := es }

def AppError.forbidden (msg : String) (es : List (String × String) := []) :
    Err := { kind := .forbidden, message := msg, errors := es }

def AppError.notFound (msg : String) (es : List (String × String) := []) :
    Err := { kind := .notFound, message := msg, errors := es }

def AppError.conflict (msg : String) (es : List (String × String) := []) :
    Err := { kind := .conflict, message := msg, errors := es }

/-- A prisma P2025 ("record to update not found") escaping uncaught. -/
def prismaNotFound : Err :=
  { kind := .internal, message := "Record to update not found" }

/-- A prisma P2002 unique-constraint violation escaping uncaught
(`User_email_key` in the migration). -/
def prismaUniqueViolation : Err :=
  { kind := .internal, message := "Unique constraint failed" }

/-! ## List update helper (prisma `update` touches the unique match) -/

def updateFirst {α : Type} (p : α → Bool) (f : α → α) :
    List α → Option (α × List α)
  | [] => none
  | x :: xs =>
    if p x then some (f x, f x :: xs)
    else
      match updateFirst p f xs with
      | none => none
      | some (u, ys) => some (u, x :: ys)

theorem find?_updateFirst {α : Type} {p : α → Bool} {f : α → α}
    {l l' : List α} {u : α} (h : updateFirst p f l = some (u, l'))
    (hu : p u = true) : l'.find? p = some u := by
  induction l generalizing l' with
  | nil => simp [updateFirst] at h
  | cons x xs ih =>
    by_cases hx : p x = true
    · simp only [updateFirst, hx, if_true] at h
      obtain ⟨hu', hl'⟩ := Prod.mk.injEq .. ▸ Option.some.injEq .. ▸ h
      subst hu' hl'
      simp [List.find?, hu]
    · simp only [updateFirst, hx] at h
      rw [if_neg (by simp [hx])] at h
      cases hrec : updateFirst p f xs with
      | none => rw [hrec] at h; exact absurd h (by simp)
      | some r =>
        rw [hrec] at h
        obtain ⟨u', ys⟩ := r
        obtain ⟨hu', hl'⟩ := Prod.mk.injEq .. ▸ Option.some.injEq .. ▸ h
        subst hu' hl'
        simp only [List.find?, hx]
        exact ih hrec

theorem updateFirst_none {α : Type} {p : α → Bool} {f : α → α}
    {l : List α} (h : updateFirst p f l = none) : l.find? p = none := by
  induction l with
  | nil => simp
  | cons x xs ih =>
    by_cases hx : p x = true
    · simp [updateFirst, hx] at h
    · simp only [updateFirst, hx] at h
      rw [if_neg (by simp [hx])] at h
      cases hrec : updateFirst p f xs with
      | none => simp [List.find?, hx, ih hrec]
      | some r => rw [hrec] at h; exact absurd h (by simp)

/-- Once absent (or expired), a cache entry stays unreadable at any later
time: `tget` is monotone-`none` in `now`. -/
theorem tget_none_mono {κ α : Type} [DecidableEq κ]
    {m : List (κ × α × Nat)} {n₁ n₂ : Nat} {k : κ}
    (h : tget m n₁ k = none) (hle : n₁ ≤ n₂) : tget m n₂ k = none := by
  unfold tget at h ⊢
  cases hf : m.find? (fun e => decide (e.1 = k)) with
  | none => rfl
  | some e =>
    rw [hf] at h
    by_cases hlt : n₁ < e.2.2
    · simp [hlt] at h
    · have : ¬ n₂ < e.2.2 := by omega
      simp [this]

/-! ## Repository (`AuthRepository`, auth.validations.ts second half) -/

def USER_CACHE_TTL : Nat := 15 * 60

def OTP_CACHE_TTL : Nat := 10 * 60

/-- Payload of `AuthRepository.create` (a `SignupInput` plus the optional
overrides the service passes for Google/guest accounts). -/
structure CreateInput where
  username : String
  email : String
  phone : Option String := none
  password : String
  signupMethod : SignupMethod := .EMAIL
  isEmailVerified : Option Bool := none
  profilePicture : Option String := none
  userType : Option UserType := none
deriving DecidableEq, Repr

/-- `prisma.user.create` (with the `$extends` `user.create` hook hashing
the password) followed by caching the created user under both keys.
The `User_email_key` unique index makes a duplicate email a P2002. -/
def AuthRepository.create (st : SysState) (now : Nat) (newId : String)
    (p : CreateInput) : Except Err User × SysState :=
  if st.users.any (fun u => decide (u.email = p.email)) then
    (Except.error prismaUniqueViolation, st)
  else
    let user : User :=
      { id := newId, username := p.username, email := p.email
        phone := p.phone
        password := hashPassword p.password
        signupMethod := p.signupMethod
        isEmailVerified := p.isEmailVerified.getD false
        userType := p.userType.getD .REGISTERED
        profilePicture := p.profilePicture }
    (Except.ok user,
      { users := st.users ++ [user]
        cache := { st.cache with
          userById := tset st.cache.userById now USER_CACHE_TTL user.id user
          userByEmail :=
            tset st.cache.userByEmail now USER_CACHE_TTL user.email user } })

/-- Cache-first lookup by email; on a cache miss reads the store and
(only when `useCache`) write-through caches the hit. -/
def AuthRepository.findByEmail (st : SysState) (now : Nat) (email : String)
    (useCache : Bool := true) : Option User × SysState :=
  if useCache then
    match tget st.cache.userByEmail now email with
    | some u => (some u, st)
    | none =>
      match st.users.find? (fun u => decide (u.email = email)) with
      | some u =>
        (some u,
          { st with cache := { st.cache with
              userByEmail :=
                tset st.cache.userByEmail now USER_CACHE_TTL email u } })
      | none => (none, st)
  else (st.users.find? (fun u => decide (u.email = email)), st)

/-- Cache-first lookup by id with write-through caching of store hits. -/
def AuthRepository.findById (st : SysState) (now : Nat) (id : String) :
    Option User × SysState :=
  match tget st.cache.userById now id with
  | some u => (some u, st)
  | none =>
    match st.users.find? (fun u => decide (u.id = id)) with
    | some u =>
      (some u,
        { st with cache := { st.cache with
            userById := tset st.cache.userById now USER_CACHE_TTL id u } })
    | none => (none, st)

/-- Direct `findUnique` by email, bypassing the cache. -/
def AuthRepository.findByEmailWithPassword (st : SysState) (email : String) :
    Option User :=
  st.users.find? (fun u => decide (u.email = email))

/-- `prisma.user.update` staging otp fields, then invalidating both user
cache keys. -/
def AuthRepository.updateOtp (st : SysState) (email otp : String)
    (otpExpiresAt : Nat) : Except Err User × SysState :=
  match updateFirst (fun u => decide (u.email = email))
      (fun u =>
        { u with otpCode := some otp, otpExpiresAt := some otpExpiresAt })
      st.users with
  | none => (Except.error prismaNotFound, st)
  | some (u, users') =>
    (Except.ok u,
      { users := users'
        cache := { st.cache with
          userByEmail := tdel st.cache.userByEmail email
          userById := tdel st.cache.userById u.id } })

/-- Marks the user verified and clears otp fields; invalidates caches. -/
def AuthRepository.verifyEmail (st : SysState) (email : String) :
    Except Err User × SysState :=
  match updateFirst (fun u => decide (u.email = email))
      (fun u =>
        { u with isEmailVerified := true, otpCode := none
                 otpExpiresAt := none })
      st.users with
  | none => (Except.error prismaNotFound, st)
  | some (u, users') =>
    (Except.ok u,
      { users := users'
        cache := { st.cache with
          userByEmail := tdel st.cache.userByEmail email
          userById := tdel st.cache.userById u.id } })

/-- Persists a password and clears otp fields.  The `$extends`
`user.update` hook hashes `data.password` transparently on this write. -/
def AuthRepository.updatePassword (st : SysState) (email password : String) :
    Except Err User × SysState :=
  match updateFirst (fun u => decide (u.email = email))
      (fun u =>
        { u with password := hashPassword password, otpCode := none
                 otpExpiresAt := none })
      st.users with
  | none => (Except.error prismaNotFound, st)
  | some (u, users') =>
    (Except.ok u,
      { users := users'
        cache := { st.cache with
          userByEmail := tdel st.cache.userByEmail email
          userById := tdel st.cache.userById u.id } })

/-- Persists (or clears, with `none`) the stored refresh token; only the
id-keyed cache entry is invalidated, as in the source. -/
def AuthRepository.updateRefreshToken (st : SysState) (userId : String)
    (rt : Option Jwt) : Except Err User × SysState :=
  match updateFirst (fun u => decide (u.id = userId))
      (fun u => { u with refreshToken := rt }) st.users with
  | none => (Except.error prismaNotFound, st)
  | some (u, users') =>
    (Except.ok u,
      { users := users'
        cache := { st.cache with
          userById := tdel st.cache.userById userId } })

/-- The partial update payload accepted by `AuthRepository.updateProfile`. -/
structure ProfileData where
  username : Option String := none
  phone : Option String := none
  profilePicture : Option String := none
  email : Option String := none
  password : Option String := none
  signupMethod : Option SignupMethod := none
  isEmailVerified : Option Bool := none
deriving DecidableEq, Repr

/-- Applies a partial profile update to a user; the `$extends`
`user.update` hook hashes the password field when it is present. -/
def applyProfileData (d : ProfileData) (u : User) : User :=
  { u with
    username := d.username.getD u.username
    phone := match d.phone with | some p => some p | none => u.phone
    profilePicture :=
      match d.profilePicture with | some p => some p | none => u.profilePicture
    email := d.email.getD u.email
    password :=
      match d.password with | some pw => hashPassword pw | none => u.password
    signupMethod := d.signupMethod.getD u.signupMethod
    isEmailVerified := d.isEmailVerified.getD u.isEmailVerified }

/-- Partial profile update by id; invalidates the id- and email-keyed
cache entries (the phone namespace is never read by the auth core). -/
def AuthRepository.updateProfile (st : SysState) (userId : String)
    (d : ProfileData) : Except Err User × SysState :=
  match updateFirst (fun u => decide (u.id = userId)) (applyProfileData d)
      st.users with
  | none => (Except.error prismaNotFound, st)
  | some (u, users') =>
    (Except.ok u,
      { users := users'
        cache := { st.cache with
          userById := tdel st.cache.userById userId
          userByEmail := tdel st.cache.userByEmail u.email } })

def AuthRepository.setOtpCache (st : SysState) (now : Nat) (email : String)
    (ty : OtpType) (otp : String) : SysState :=
  { st with cache := { st.cache with
      otp := tset st.cache.otp now OTP_CACHE_TTL (ty, email) otp } }

def AuthRepository.getOtpCache (st : SysState) (now : Nat) (email : String)
    (ty : OtpType) : Option String :=
  tget st.cache.otp now (ty, email)

def AuthRepository.deleteOtpCache (st : SysState) (email : String)
    (ty : OtpType) : SysState :=
  { st with cache := { st.cache with otp := tdel st.cache.otp (ty, email) } }

def AuthRepository.blacklistToken (st : SysState) (now : Nat) (tok : Jwt)
    (expiresIn : Nat) : SysState :=
  { st with cache := { st.cache with
      blacklist := tset st.cache.blacklist now expiresIn tok "1" } }

def AuthRepository.isTokenBlacklisted (st : SysState) (now : Nat)
    (tok : Jwt) : Bool :=
  (tget st.cache.blacklist now tok).isSome

/-! ## DTO (`AuthDto`, auth.dto.ts) -/

/-- The user projection inside responses: all persisted fields spread in,
with the sensitive four overridden to `undefined`. -/
structure UserResponse where
  id : String
  username : String
  email : String
  phone : Option String
  role : Role
  userType : UserType
  signupMethod : SignupMethod
  isEmailVerified : Bool
  isActive : Bool
  isDeleted : Bool
  deletedAt : Option Nat
  profilePicture : Option String
  password : Option String
  otpCode : Option String
  otpExpiresAt : Option Nat
  refreshToken : Option Jwt
deriving DecidableEq, Repr

structure AuthResponse where
  user : UserResponse
deriving DecidableEq, Repr

structure LoginResponse where
  user : UserResponse
  token : TokenPair
deriving DecidableEq, Repr

def AuthDto.toResponse (u : User) : AuthResponse :=
  { user :=
    { id := u.id, username := u.username, email := u.email, phone := u.phone
      role := u.role, userType := u.userType
      signupMethod := u.signupMethod
      isEmailVerified := u.isEmailVerified, isActive := u.isActive
      isDeleted := u.isDeleted, deletedAt := u.deletedAt
      profilePicture := u.profilePicture
      password := none, otpCode := none, otpExpiresAt := none
      refreshToken := none } }

def AuthDto.toSignupResponse (u : User) : AuthResponse := AuthDto.toResponse u

def AuthDto.toLoginResponse (u : User) (t : TokenPair) : LoginResponse :=
  { user := (AuthDto.toResponse u).user, token := t }

/-- Modelled from the spec: the email transport (`sendEmail` util) is an
external collaborator specified only at its boundary; `emailOk` is the
outcome of one send attempt (`false` = the transport threw). -/
def sendEmail (emailOk : Bool) : Except String Unit :=
  if emailOk then Except.ok () else Except.error "email send failed"

/-! ## Service inputs (zod-validated payload shapes) -/

structure SignupInput where
  username : String
  email : String
  phone : Option String := none
  password : String
  signupMethod : SignupMethod := .EMAIL
deriving DecidableEq, Repr

structure LoginInput where
  email : String
  password : String
deriving DecidableEq, Repr

structure VerifyOtpInput where
  email : String
  otp : String
  type : OtpType := .emailVerification
deriving DecidableEq, Repr

structure ResendOtpInput where
  email : String
  type : OtpType := .emailVerification
deriving DecidableEq, Repr

structure ResetPasswordInput where
  email : String
  password : String
deriving DecidableEq, Repr

structure ChangePasswordInput where
  currentPassword : String
  newPassword : String
deriving DecidableEq, Repr

structure UpdateProfileInput where
  username : Option String := none
  phone : Option String := none
  profilePicture : Option String := none
deriving DecidableEq, Repr

structure ConvertGuestInput where
  email : String
  password : String
  username : Option String := none
deriving DecidableEq, Repr

/-- The claims a verified Firebase id-token decodes to
(`verifyFirebaseToken` in firebase.util.ts; absent email is `""`). -/
structure FirebaseUser where
  uid : String
  email : String
  emailVerified : Bool
  name : Option String := none
  picture : Option String := none
  phoneNumber : Option String := none
deriving DecidableEq, Repr

/-- JS `a || b` over an optional string: the empty string is falsy. -/
def jsOr (a : Option String) (b : String) : String :=
  match a with
  | some s => if s = "" then b else s
  | none => b

/-! ## AuthService (auth.service.ts)

Each operation takes `now` (= `Date.now()` for the request), the outcomes
of its random draws (`newId`, `otpCode`, `randomSuffix`, `randomPassword`)
and of its external calls (`emailOk`, the Firebase claims) as parameters,
and threads the system state explicitly.  Errors carry along the state as
mutated up to the throw point. -/

def AuthService.signup (now : Nat) (emailOk : Bool) (newId otpCode : String)
    (p : SignupInput) (st : SysState) : Except Err AuthResponse × SysState :=
  match AuthRepository.findByEmail st now p.email true with
  | (some _, st1) =>
    (Except.error (AppError.conflict "Email already exists"
        [("email", "Email already exists")]), st1)
  | (none, st1) =>
    match AuthRepository.create st1 now newId
        { username := p.username, email := p.email, phone := p.phone
          password := p.password, signupMethod := p.signupMethod } with
    | (Except.error e, st2) => (Except.error e, st2)
    | (Except.ok user, st2) =>
      match AuthRepository.updateOtp st2 p.email otpCode
          (now + 10 * 60 * 1000) with
      | (Except.error e, st3) => (Except.error e, st3)
      | (Except.ok _, st3) =>
        let st4 := AuthRepository.setOtpCache st3 now p.email
          .emailVerification otpCode
        match sendEmail emailOk with
        | Except.ok _ => (Except.ok (AuthDto.toSignupResponse user), st4)
        | Except.error _ => (Except.ok (AuthDto.toSignupResponse user), st4)

def AuthService.login (now : Nat) (p : LoginInput) (st : SysState) :
    Except Err LoginResponse × SysState :=
  match AuthRepository.findByEmailWithPassword st p.email with
  | none =>
    (Except.error (AppError.unauthorized "Invalid email or password"
        [("email", "Invalid email or password")]), st)
  | some user =>
    if user.isActive = false then
      (Except.error (AppError.forbidden "Account is deactivated"
          [("email", "Account is deactivated")]), st)
    else if user.isDeleted = true then
      (Except.error (AppError.forbidden "Account has been deleted"
          [("email", "Account has been deleted")]), st)
    else if comparePassword p.password user.password = false then
      (Except.error (AppError.unauthorized "Invalid email or password"
          [("email", "Invalid email or password")]), st)
    else if user.isEmailVerified = false then
      (Except.error (AppError.unauthorized
          "Please verify your email before logging in"
          [("email", "Please verify your email before logging in")]), st)
    else
      let token := generateTokens
        { id := user.id, email := user.email, role := user.role } now
      match AuthRepository.updateRefreshToken st user.id
          (some token.refreshToken) with
      | (Except.error e, st1) => (Except.error e, st1)
      | (Except.ok _, st1) =>
        (Except.ok (AuthDto.toLoginResponse user token), st1)

/-- The cache-primary / database-fallback check opening
`AuthService.verifyOtp` (the `if (!cachedOtp || cachedOtp !== otp)` block).
`none` means the check passed.  JS falsiness of the empty string in
`!cachedOtp` / `!userWithOtp.otpCode` is modelled explicitly; the
fallback user load bypasses the cache (`findByEmail(email, false)`). -/
def otpGate (st : SysState) (now : Nat) (email otp : String)
    (ty : OtpType) : Option Err :=
  if AuthRepository.getOtpCache st now email ty = some otp ∧ otp ≠ "" then
    none
  else
    match (AuthRepository.findByEmail st now email false).1 with
    | none =>
      some (AppError.badRequest "Invalid or expired OTP code"
        [("otp", "Invalid or expired OTP code")])
    | some user =>
      if user.otpCode = some otp ∧ otp ≠ "" then
        match user.otpExpiresAt with
        | none =>
          some (AppError.badRequest "OTP code has expired"
            [("otp", "OTP code has expired")])
        | some t =>
          if t < now then
            some (AppError.badRequest "OTP code has expired"
              [("otp", "OTP code has expired")])
          else none
      else
        some (AppError.badRequest "Invalid or expired OTP code"
          [("otp", "Invalid or expired OTP code")])

inductive VerifyOtpResult
  | loggedIn (r : LoginResponse)
  | verified (flag : Bool) (email : String)
deriving DecidableEq, Repr

def AuthService.verifyOtp (now : Nat) (p : VerifyOtpInput) (st : SysState) :
    Except Err VerifyOtpResult × SysState :=
  match otpGate st now p.email p.otp p.type with
  | some e => (Except.error e, st)
  | none =>
    match p.type with
    | .emailVerification =>
      match AuthRepository.verifyEmail st p.email with
      | (Except.error e, st1) => (Except.error e, st1)
      | (Except.ok user, st1) =>
        let st2 := AuthRepository.deleteOtpCache st1 p.email p.type
        let token := generateTokens
          { id := user.id, email := user.email, role := user.role } now
        match AuthRepository.updateRefreshToken st2 user.id
            (some token.refreshToken) with
        | (Except.error e, st3) => (Except.error e, st3)
        | (Except.ok _, st3) =>
          (Except.ok (.loggedIn (AuthDto.toLoginResponse user token)), st3)
    | .forgotPassword =>
      (Except.ok (.verified true p.email),
        AuthRepository.deleteOtpCache st p.email p.type)

def AuthService.resendOtp (now : Nat) (emailOk : Bool) (otpCode : String)
    (p : ResendOtpInput) (st : SysState) : Except Err String × SysState :=
  match AuthRepository.findByEmail st now p.email true with
  | (none, st1) => (Except.error (AppError.notFound "User not found"), st1)
  | (some _, st1) =>
    match AuthRepository.updateOtp st1 p.email otpCode
        (now + 10 * 60 * 1000) with
    | (Except.error e, st2) => (Except.error e, st2)
    | (Except.ok _, st2) =>
      let st3 := AuthRepository.setOtpCache st2 now p.email p.type otpCode
      match sendEmail emailOk with
      | Except.ok _ => (Except.ok p.email, st3)
      | Except.error _ =>
        (Except.error (AppError.badRequest "Failed to send OTP email"), st3)

def AuthService.forgotPassword (now : Nat) (emailOk : Bool)
    (otpCode : String) (email : String) (st : SysState) :
    Except Err String × SysState :=
  match AuthRepository.findByEmail st now email true with
  | (none, st1) =>
    (Except.error (AppError.notFound "User not found"
        [("email", "User not found")]), st1)
  | (some _, st1) =>
    match AuthRepository.updateOtp st1 email otpCode
        (now + 10 * 60 * 1000) with
    | (Except.error e, st2) => (Except.error e, st2)
    | (Except.ok _, st2) =>
      let st3 := AuthRepository.setOtpCache st2 now email .forgotPassword
        otpCode
      match sendEmail emailOk with
      | Except.ok _ => (Except.ok email, st3)
      | Except.error _ =>
        (Except.error
          (AppError.badRequest "Failed to send password reset email"), st3)

def AuthService.resetPassword (now : Nat) (p : ResetPasswordInput)
    (st : SysState) : Except Err AuthResponse × SysState :=
  match AuthRepository.findByEmail st now p.email false with
  | (none, st1) =>
    (Except.error (AppError.notFound "User not found"
        [("email", "User not found")]), st1)
  | (some _, st1) =>
    match AuthRepository.updatePassword st1 p.email p.password with
    | (Except.error e, st2) => (Except.error e, st2)
    | (Except.ok updated, st2) =>
      let st3 := AuthRepository.deleteOtpCache st2 p.email .forgotPassword
      (Except.ok (AuthDto.toResponse updated), st3)

def AuthService.refreshToken (now : Nat) (tok : Jwt) (st : SysState) :
    Except Err LoginResponse × SysState :=
  if AuthRepository.isTokenBlacklisted st now tok then
    (Except.error (AppError.unauthorized "Token has been revoked"), st)
  else
    match verifyRefreshToken tok now with
    | Except.error _ =>
      (Except.error
        (AppError.unauthorized "Invalid or expired refresh token"), st)
    | Except.ok decoded =>
      match AuthRepository.findById st now decoded.id with
      | (none, st1) =>
        (Except.error (AppError.unauthorized "User not found"), st1)
      | (some user, st1) =>
        if user.refreshToken ≠ some tok then
          (Except.error (AppError.unauthorized "Invalid refresh token"), st1)
        else if user.isActive = false ∨ user.isDeleted = true then
          (Except.error
            (AppError.forbidden "Account is deactivated or deleted"), st1)
        else
          let pair := generateTokens
            { id := user.id, email := user.email, role := user.role } now
          match AuthRepository.updateRefreshToken st1 user.id
              (some pair.refreshToken) with
          | (Except.error e, st2) => (Except.error e, st2)
          | (Except.ok _, st2) =>
            (Except.ok (AuthDto.toLoginResponse user pair), st2)

/-- `AuthService.logout`.  NOTE: in the source `verifyRefreshToken` is
called outside any try/catch, so a verification failure (e.g. an expired
token) escapes as a raw jwt error before anything is cleared. -/
def AuthService.logout (now : Nat) (userId : String) (tok : Jwt)
    (st : SysState) : Except Err String × SysState :=
  match verifyRefreshToken tok now with
  | Except.error m => (Except.error { kind := .jwtError, message := m }, st)
  | Except.ok decoded =>
    let expiresIn : Int := (decoded.exp : Int) - ((now / 1000 : Nat) : Int)
    let st1 :=
      if 0 < expiresIn then
        AuthRepository.blacklistToken st now tok expiresIn.toNat
      else st
    match AuthRepository.updateRefreshToken st1 userId none with
    | (Except.error e, st2) => (Except.error e, st2)
    | (Except.ok _, st2) => (Except.ok "Logged out successfully", st2)

def AuthService.changePassword (now : Nat) (userId : String)
    (p : ChangePasswordInput) (st : SysState) :
    Except Err AuthResponse × SysState :=
  let byId := AuthRepository.findById st now userId
  let email := match byId.1 with | some u => u.email | none => ""
  match AuthRepository.findByEmailWithPassword byId.2 email with
  | none => (Except.error (AppError.notFound "User not found"), byId.2)
  | some user =>
    if user.id ≠ userId then
      (Except.error (AppError.notFound "User not found"), byId.2)
    else if comparePassword p.currentPassword user.password = false then
      (Except.error (AppError.badRequest "Current password is incorrect"),
        byId.2)
    else
      match AuthRepository.updatePassword byId.2 user.email
          (hashPassword p.newPassword) with
      | (Except.error e, st2) => (Except.error e, st2)
      | (Except.ok updated, st2) =>
        (Except.ok (AuthDto.toResponse updated), st2)

def AuthService.getMe (now : Nat) (userId : String) (st : SysState) :
    Except Err AuthResponse × SysState :=
  match AuthRepository.findById st now userId with
  | (none, st1) => (Except.error (AppError.notFound "User not found"), st1)
  | (some user, st1) => (Except.ok (AuthDto.toResponse user), st1)

def AuthService.updateProfile (userId : String) (d : UpdateProfileInput)
    (st : SysState) : Except Err AuthResponse × SysState :=
  match AuthRepository.updateProfile st userId
      { username := d.username, phone := d.phone
        profilePicture := d.profilePicture } with
  | (Except.error e, st1) => (Except.error e, st1)
  | (Except.ok user, st1) => (Except.ok (AuthDto.toResponse user), st1)

/-- The opportunistic profile sync `googleAuth` builds for an existing
Google-method user (`updateData` in the source; JS truthiness of the
claim strings modelled explicitly). -/
def googleUpdateData (f : FirebaseUser) (user : User) : ProfileData :=
  let d : ProfileData := {}
  let d :=
    match f.picture with
    | some pic =>
      if pic ≠ "" ∧ some pic ≠ user.profilePicture then
        { d with profilePicture := some pic }
      else d
    | none => d
  let d :=
    match f.name with
    | some n =>
      if n ≠ "" ∧ n ≠ user.username then
        if user.username = "" ∨
            user.username = ((user.email.splitOn "@").headD "") then
          { d with username := some n }
        else d
      else d
    | none => d
  if f.emailVerified = true ∧ user.isEmailVerified = false then
    { d with isEmailVerified := some true }
  else d

def AuthService.googleAuth (now : Nat) (fb : Option FirebaseUser)
    (username : Option String) (newId randomPassword : String)
    (st : SysState) : Except Err LoginResponse × SysState :=
  match fb with
  | none =>
    (Except.error (AppError.unauthorized "Invalid or expired Firebase token"),
      st)
  | some f =>
    if f.email = "" then
      (Except.error
        (AppError.badRequest "Email is required for Google authentication"
          [("idToken", "Email is required for Google authentication")]), st)
    else
      match AuthRepository.findByEmail st now f.email true with
      | (some user0, st1) =>
        if user0.signupMethod ≠ .GOOGLE then
          (Except.error (AppError.conflict
              "An account with this email already exists. Please use email/password login."
              [("email", "Account already exists with email/password")]), st1)
        else
          match (if googleUpdateData f user0 = ({} : ProfileData) then
                   (Except.ok user0, st1)
                 else
                   AuthRepository.updateProfile st1 user0.id
                     (googleUpdateData f user0)) with
          | (Except.error e, st2) => (Except.error e, st2)
          | (Except.ok user, st2) =>
            if user.isActive = false ∨ user.isDeleted = true then
              (Except.error
                (AppError.forbidden "Account is deactivated or deleted"
                  [("email", "Account is deactivated or deleted")]), st2)
            else
              let token := generateTokens
                { id := user.id, email := user.email, role := user.role } now
              match AuthRepository.updateRefreshToken st2 user.id
                  (some token.refreshToken) with
              | (Except.error e, st3) => (Except.error e, st3)
              | (Except.ok _, st3) =>
                (Except.ok (AuthDto.toLoginResponse user token), st3)
      | (none, st1) =>
        let generatedUsername :=
          jsOr username (jsOr f.name ((f.email.splitOn "@").headD ""))
        match AuthRepository.create st1 now newId
            { username := generatedUsername, email := f.email
              phone := match f.phoneNumber with
                | some ph => if ph = "" then none else some ph
                | none => none
              password := randomPassword
              signupMethod := .GOOGLE
              isEmailVerified := some f.emailVerified
              profilePicture := f.picture
              userType := some .REGISTERED } with
        | (Except.error e, st2) => (Except.error e, st2)
        | (Except.ok newUser, st2) =>
          let d0 : ProfileData := {}
          let d1 :=
            if f.emailVerified = true ∧ newUser.isEmailVerified = false then
              { d0 with isEmailVerified := some true }
            else d0
          let d2 :=
            match f.picture with
            | some pic =>
              if pic ≠ "" ∧ some pic ≠ newUser.profilePicture then
                { d1 with profilePicture := some pic }
              else d1
            | none => d1
          match (if d2 = ({} : ProfileData) then (Except.ok newUser, st2)
                 else AuthRepository.updateProfile st2 newUser.id d2) with
          | (Except.error e, st3) => (Except.error e, st3)
          | (Except.ok finalUser, st3) =>
            let token := generateTokens
              { id := finalUser.id, email := finalUser.email
                role := finalUser.role } now
            match AuthRepository.updateRefreshToken st3 finalUser.id
                (some token.refreshToken) with
            | (Except.error e, st4) => (Except.error e, st4)
            | (Except.ok _, st4) =>
              (Except.ok (AuthDto.toLoginResponse finalUser token), st4)

def AuthService.guestLogin (now : Nat) (username : Option String)
    (newId randomSuffix randomPassword : String) (st : SysState) :
    Except Err LoginResponse × SysState :=
  let tsStr := toString now
  let guestEmail :=
    "guest_" ++ tsStr ++ "_" ++ randomSuffix ++ "@guest.local"
  let guestUsername :=
    jsOr username ("Guest_" ++ String.mk (tsStr.data.drop (tsStr.data.length - 6)))
  match AuthRepository.create st now newId
      { username := guestUsername, email := guestEmail
        password := randomPassword, signupMethod := .EMAIL
        userType := some .GUEST, isEmailVerified := some true } with
  | (Except.error e, st1) => (Except.error e, st1)
  | (Except.ok guestUser, st1) =>
    let token := generateTokens
      { id := guestUser.id, email := guestUser.email
        role := guestUser.role } now
    match AuthRepository.updateRefreshToken st1 guestUser.id
        (some token.refreshToken) with
    | (Except.error e, st2) => (Except.error e, st2)
    | (Except.ok _, st2) =>
      (Except.ok (AuthDto.toLoginResponse guestUser token), st2)

/-- Continuation of `convertGuestToRegistered` after the guest and
email-uniqueness checks pass (both the no-existing-user path and the
existing-user-is-self path fall through to this code in the source). -/
def convertGuestStage2 (now : Nat) (emailOk : Bool) (otpCode : String)
    (userId : String) (p : ConvertGuestInput) (user : User)
    (st : SysState) : Except Err LoginResponse × SysState :=
  match AuthRepository.updateProfile st userId
      { email := some p.email, password := some p.password
        username := some (jsOr p.username user.username)
        signupMethod := some .EMAIL } with
  | (Except.error e, st1) => (Except.error e, st1)
  | (Except.ok _, st1) =>
    match updateFirst (fun u => decide (u.id = userId))
        (fun u => { u with userType := .REGISTERED, isEmailVerified := false })
        st1.users with
    | none => (Except.error prismaNotFound, st1)
    | some (finalUser, users') =>
      let st2 : SysState := { st1 with users := users' }
      let token := generateTokens
        { id := finalUser.id, email := finalUser.email
          role := finalUser.role } now
      match AuthRepository.updateRefreshToken st2 finalUser.id
          (some token.refreshToken) with
      | (Except.error e, st3) => (Except.error e, st3)
      | (Except.ok _, st3) =>
        match AuthRepository.updateOtp st3 p.email otpCode
            (now + 10 * 60 * 1000) with
        | (Except.error e, st4) => (Except.error e, st4)
        | (Except.ok _, st4) =>
          let st5 := AuthRepository.setOtpCache st4 now p.email
            .emailVerification otpCode
          match sendEmail emailOk with
          | Except.ok _ =>
            (Except.ok (AuthDto.toLoginResponse finalUser token), st5)
          | Except.error _ =>
            (Except.ok (AuthDto.toLoginResponse finalUser token), st5)

def AuthService.convertGuestToRegistered (now : Nat) (emailOk : Bool)
    (otpCode : String) (userId : String) (p : ConvertGuestInput)
    (st : SysState) : Except Err LoginResponse × SysState :=
  match AuthRepository.findById st now userId with
  | (none, st1) => (Except.error (AppError.notFound "User not found"), st1)
  | (some user, st1) =>
    if user.userType ≠ .GUEST then
      (Except.error (AppError.badRequest "User is already registered"
          [("userType", "User is already registered")]), st1)
    else
      match AuthRepository.findByEmail st1 now p.email true with
      | (some existing, st2) =>
        if existing.id ≠ userId then
          (Except.error (AppError.conflict "Email already exists"
              [("email", "Email already exists")]), st2)
        else convertGuestStage2 now emailOk otpCode userId p user st2
      | (none, st2) => convertGuestStage2 now emailOk otpCode userId p user st2

/-! ## Request gate (auth.middleware.ts `authenticate`) -/

def USER_MIDDLEWARE_CACHE_TTL : Nat := 5 * 60

/-- The `authenticate` middleware.  `token` is the bearer token extracted
from the Authorization header or the cookie fallback (`none` = absent). -/
def authenticate (now : Nat) (token : Option Jwt) (st : SysState) :
    Except Err SessionUser × SysState :=
  match token with
  | none =>
    (Except.error
      (AppError.unauthorized "Authentication required. Please login."), st)
  | some tok =>
    if AuthRepository.isTokenBlacklisted st now tok then
      (Except.error
        (AppError.unauthorized "Token has been revoked. Please login again."),
        st)
    else
      match verifyToken tok now with
      | Except.error _ =>
        (Except.error (AppError.unauthorized
            "Invalid or expired token. Please login again."), st)
      | Except.ok decoded =>
        if decoded.id = "" then
          (Except.error (AppError.unauthorized "Invalid token payload."), st)
        else
          match tget st.cache.authUser now decoded.id with
          | some cu => (Except.ok cu, st)
          | none =>
            match AuthRepository.findById st now decoded.id with
            | (none, st1) =>
              (Except.error (AppError.unauthorized
                  "User not found. Please login again."), st1)
            | (some user, st1) =>
              if user.isActive = false ∨ user.isDeleted = true then
                (Except.error (AppError.forbidden
                    "Account is deactivated or deleted."), st1)
              else if user.isEmailVerified = false ∧
                  user.userType ≠ .GUEST then
                (Except.error (AppError.unauthorized
                    "Please verify your email before accessing this resource."),
                  st1)
              else
                let cu : SessionUser :=
                  { id := user.id, username := user.username
                    email := user.email, role := user.role
                    userType := user.userType
                    isEmailVerified := user.isEmailVerified
                    isActive := user.isActive }
                (Except.ok cu,
                  { st1 with cache := { st1.cache with
                      authUser := tset st1.cache.authUser now
                        USER_MIDDLEWARE_CACHE_TTL decoded.id cu } })

/-! ## General lemmas about the embedding -/

theorem tget_tdel_self {κ α : Type} [DecidableEq κ] (m : List (κ × α × Nat))
    (now : Nat) (k : κ) : tget (tdel m k) now k = none := by
  unfold tget tdel
  cases hf : (m.filter fun e => decide (e.1 ≠ k)).find?
      (fun e => decide (e.1 = k)) with
  | none => rfl
  | some e =>
    have h1 := List.find?_some hf
    have h2 := (List.mem_filter.mp (List.mem_of_find?_eq_some hf)).2
    simp only [decide_eq_true_eq] at h1 h2
    exact absurd h1 h2

theorem updateFirst_mem {α : Type} {p : α → Bool} {f : α → α}
    {l l' : List α} {v : α} (h : updateFirst p f l = some (v, l')) :
    v ∈ l' := by
  induction l generalizing l' with
  | nil => simp [updateFirst] at h
  | cons x xs ih =>
    by_cases hx : p x = true
    · simp only [updateFirst, hx, if_true] at h
      obtain ⟨h1, h2⟩ := Prod.mk.injEq .. ▸ Option.some.injEq .. ▸ h
      subst h1 h2
      exact List.mem_cons_self _ _
    · simp only [updateFirst, hx] at h
      rw [if_neg (by simp [hx])] at h
      cases hrec : updateFirst p f xs with
      | none => rw [hrec] at h; exact absurd h (by simp)
      | some r =>
        rw [hrec] at h
        obtain ⟨u', ys⟩ := r
        obtain ⟨h1, h2⟩ := Prod.mk.injEq .. ▸ Option.some.injEq .. ▸ h
        subst h1 h2
        exact List.mem_cons_of_mem _ (ih hrec)

theorem updateFirst_eq_find? {α : Type} {p : α → Bool} {f : α → α}
    {l l' : List α} {v : α} (h : updateFirst p f l = some (v, l')) :
    ∃ w, l.find? p = some w ∧ v = f w := by
  induction l generalizing l' with
  | nil => simp [updateFirst] at h
  | cons x xs ih =>
    by_cases hx : p x = true
    · simp only [updateFirst, hx, if_true] at h
      obtain ⟨h1, h2⟩ := Prod.mk.injEq .. ▸ Option.some.injEq .. ▸ h
      exact ⟨x, List.find?_cons_of_pos _ hx, h1.symm⟩
    · simp only [updateFirst, hx] at h
      rw [if_neg (by simp [hx])] at h
      cases hrec : updateFirst p f xs with
      | none => rw [hrec] at h; exact absurd h (by simp)
      | some r =>
        rw [hrec] at h
        obtain ⟨u', ys⟩ := r
        obtain ⟨h1, h2⟩ := Prod.mk.injEq .. ▸ Option.some.injEq .. ▸ h
        obtain ⟨w, hw, hv⟩ := ih (by rw [hrec, h1])
        exact ⟨w, by rw [List.find?_cons_of_neg _ (by simp [hx])]; exact hw,
          hv⟩

theorem updateFirst_isSome {α : Type} {p : α → Bool} (f : α → α)
    {l : List α} (h : (l.find? p).isSome = true) :
    ∃ v l', updateFirst p f l = some (v, l') := by
  induction l with
  | nil => simp at h
  | cons x xs ih =>
    by_cases hx : p x = true
    · exact ⟨f x, f x :: xs, by simp [updateFirst, hx]⟩
    · rw [List.find?_cons_of_neg _ (by simp [hx])] at h
      obtain ⟨v, l', hv⟩ := ih h
      exact ⟨v, x :: l', by simp [updateFirst, hx, hv]⟩

theorem updateFirst_append_singleton {α : Type} {p : α → Bool} {f : α → α}
    {l : List α} {y : α} (hl : ∀ x ∈ l, p x = false) (hy : p y = true) :
    updateFirst p f (l ++ [y]) = some (f y, l ++ [f y]) := by
  induction l with
  | nil => simp [updateFirst, hy]
  | cons x xs ih =>
    have hx : p x = false := hl x (List.mem_cons_self _ _)
    simp only [List.cons_append, updateFirst, hx]
    rw [if_neg (by simp [hx])]
    rw [show xs.append [y] = xs ++ [y] from rfl,
      ih (fun z hz => hl z (List.mem_cons_of_mem _ hz))]

/-- `find?` through an `updateFirst` whose function preserves the searched
predicate and the observed projection. -/
theorem find?_map_updateFirst {α β : Type} {p : α → Bool} {f : α → α}
    {l l' : List α} {v : α} (q : α → Bool) (g : α → β)
    (h : updateFirst p f l = some (v, l'))
    (hq : ∀ x, q (f x) = q x) (hg : ∀ x, g (f x) = g x) :
    (l'.find? q).map g = (l.find? q).map g := by
  induction l generalizing l' with
  | nil => simp [updateFirst] at h
  | cons x xs ih =>
    by_cases hx : p x = true
    · simp only [updateFirst, hx, if_true] at h
      obtain ⟨h1, h2⟩ := Prod.mk.injEq .. ▸ Option.some.injEq .. ▸ h
      subst h2
      by_cases hqx : q x = true
      · rw [List.find?_cons_of_pos _ (show q (f x) = true by rw [hq]; exact hqx),
          List.find?_cons_of_pos _ hqx]
        simp [hg]
      · rw [List.find?_cons_of_neg _
            (show ¬ q (f x) = true by rw [hq]; simp [hqx]),
          List.find?_cons_of_neg _ (by simp [hqx])]
    · simp only [updateFirst, hx] at h
      rw [if_neg (by simp [hx])] at h
      cases hrec : updateFirst p f xs with
      | none => rw [hrec] at h; exact absurd h (by simp)
      | some r =>
        rw [hrec] at h
        obtain ⟨u', ys⟩ := r
        obtain ⟨h1, h2⟩ := Prod.mk.injEq .. ▸ Option.some.injEq .. ▸ h
        subst h2
        by_cases hqx : q x = true
        · rw [List.find?_cons_of_pos _ hqx, List.find?_cons_of_pos _ hqx]
        · rw [List.find?_cons_of_neg _ (by simp [hqx]),
            List.find?_cons_of_neg _ (by simp [hqx])]
          exact ih (by rw [hrec, h1])

theorem hashPassword_len (s : String) :
    (hashPassword s).length = s.length + 7 := by
  have h7 : ("$2b$10$" : String).length = 7 := rfl
  simp [hashPassword, String.length_append, h7]
  omega

theorem comparePassword_double_hash (s : String) :
    comparePassword s (hashPassword (hashPassword s)) = false := by
  have hlen : (hashPassword (hashPassword s)).length ≠
      (hashPassword s).length := by
    rw [hashPassword_len, hashPassword_len]
    omega
  have hne : hashPassword (hashPassword s) ≠ hashPassword s :=
    fun h => hlen (congrArg String.length h)
  unfold comparePassword
  exact beq_eq_false_iff_ne.mpr hne

/-! ## Concrete fixtures for witnesses and counterexamples -/

def wUser : User :=
  { id := "u1", username := "alice", email := "a@x.com"
    password := hashPassword "pw", isEmailVerified := true }

def c1User : User :=
  { id := "u1", username := "alice", email := "a@x.com"
    password := hashPassword "pw", otpCode := some "123456"
    otpExpiresAt := some 700000 }

def c1St : SysState :=
  { users := [c1User]
    cache := { otp := [((OtpType.forgotPassword, "a@x.com"), "123456", 600000)] } }

def w10St : SysState :=
  { users := []
    cache := { otp := [((OtpType.forgotPassword, "a@x.com"), "123456", 600000)] } }

/-! ## C10 -/

/-- C10: whenever the forgotPassword cache entry for the email equals the
supplied (nonempty) code, `verifyOtp(email, otp, forgotPassword)` succeeds
with `{verified: true, email}` and the only state change is the deletion of
that cache entry — in particular the user table is untouched and no user
record is required (the state quantifies over arbitrary `users`, including
none with that email). -/
theorem C10_theorem (st : SysState) (now : Nat) (email otp : String)
    (hne : otp ≠ "")
    (hcache : AuthRepository.getOtpCache st now email .forgotPassword =
      some otp) :
    AuthService.verifyOtp now
        { email := email, otp := otp, type := .forgotPassword } st =
      (Except.ok (VerifyOtpResult.verified true email),
        { st with cache := { st.cache with
            otp := tdel st.cache.otp (OtpType.forgotPassword, email) } }) := by
  unfold AuthService.verifyOtp otpGate
  simp only [hcache, hne, ne_eq, not_false_eq_true, and_self, if_true]
  rfl

/-- Witness for C10 at a state with an empty user table. -/
theorem C10_witness :
    ("123456" : String) ≠ "" ∧
    AuthRepository.getOtpCache w10St 1000 "a@x.com" .forgotPassword =
      some "123456" ∧
    AuthService.verifyOtp 1000
        { email := "a@x.com", otp := "123456", type := .forgotPassword }
        w10St =
      (Except.ok (VerifyOtpResult.verified true "a@x.com"),
        { w10St with cache := { w10St.cache with
            otp := tdel w10St.cache.otp (OtpType.forgotPassword, "a@x.com") } }) :=
  ⟨by decide, rfl,
    C10_theorem w10St 1000 "a@x.com" "123456" (by decide) rfl⟩

/-! ## C5 -/

def c5DeletedUser : User :=
  { id := "u2", username := "bob", email := "b@x.com"
    password := hashPassword "pw", isDeleted := true, deletedAt := some 5 }

/-- C5 counterexample: a signup whose email belongs only to a soft-deleted
user (`isDeleted = true`) DOES fail with Conflict("Email already exists"),
because `findByEmail` runs `findUnique({where: {email}})` with no
`isDeleted` filter. -/
theorem C5_counterexample :
    c5DeletedUser.isDeleted = true ∧
    (AuthService.signup 1000 true "u9" "111111"
      { username := "new", email := "b@x.com", password := "pw2" }
      { users := [c5DeletedUser] }).1 =
      Except.error (AppError.conflict "Email already exists"
        [("email", "Email already exists")]) :=
  ⟨rfl, rfl⟩

/-- C5 (amended): with no stale email-cache entry, signup fails with
Conflict("Email already exists") iff some user record — deleted or not —
holds that email. -/
theorem C5_theorem (st : SysState) (now : Nat) (emailOk : Bool)
    (newId otpCode : String) (p : SignupInput)
    (hmiss : tget st.cache.userByEmail now p.email = none) :
    ((AuthService.signup now emailOk newId otpCode p st).1 =
        Except.error (AppError.conflict "Email already exists"
          [("email", "Email already exists")]) ↔
      (st.users.find? (fun u => decide (u.email = p.email))).isSome = true) := by
  unfold AuthService.signup AuthRepository.findByEmail
  simp only [if_true, hmiss]
  cases hfind : st.users.find? (fun u => decide (u.email = p.email)) with
  | some u => simp
  | none =>
    have hany : st.users.any (fun u => decide (u.email = p.email)) = false := by
      rw [List.any_eq_false]
      intro x hx
      have hnx := List.find?_eq_none.mp hfind x hx
      simpa using hnx
    unfold AuthRepository.create AuthRepository.updateOtp
    simp only [hany, Bool.false_eq_true, if_false]
    rw [updateFirst_append_singleton
      (fun x hx => by simpa using List.find?_eq_none.mp hfind x hx)
      (by simp)]
    cases emailOk <;> simp [AuthRepository.setOtpCache, sendEmail]

/-- Witness for C5 at a state whose only user is soft-deleted: the
amended equivalence holds and both sides are true. -/
theorem C5_witness :
    tget (SysState.cache { users := [c5DeletedUser] }).userByEmail 1000
        "b@x.com" = none ∧
    ((AuthService.signup 1000 true "u9" "111111"
        { username := "new", email := "b@x.com", password := "pw2" }
        { users := [c5DeletedUser] }).1 =
      Except.error (AppError.conflict "Email already exists"
        [("email", "Email already exists")]) ↔
      (([c5DeletedUser] : List User).find?
        (fun u => decide (u.email = "b@x.com"))).isSome = true) :=
  ⟨rfl, C5_theorem { users := [c5DeletedUser] } 1000 true "u9" "111111"
    { username := "new", email := "b@x.com", password := "pw2" } rfl⟩

/-! ## C6 -/

def c6Inactive : User :=
  { id := "u3", username := "carol", email := "c@x.com"
    password := hashPassword "right", isActive := false
    isEmailVerified := true }

/-- C6 counterexample: for an existing but deactivated user with a wrong
password, login fails with Forbidden("Account is deactivated"), while for a
non-existent email it fails with Unauthorized("Invalid email or password");
the two runs are distinguishable, refuting the universally quantified
indistinguishability claim. -/
theorem C6_counterexample :
    comparePassword "wrong" c6Inactive.password = false ∧
    (AuthService.login 1000 { email := "c@x.com", password := "wrong" }
      { users := [c6Inactive] }).1 =
      Except.error (AppError.forbidden "Account is deactivated"
        [("email", "Account is deactivated")]) ∧
    (AuthService.login 1000 { email := "c@x.com", password := "wrong" }
      { users := [] }).1 =
      Except.error (AppError.unauthorized "Invalid email or password"
        [("email", "Invalid email or password")]) :=
  ⟨rfl, rfl, rfl⟩

/-- C6 (amended): the no-such-user run and the wrong-password run against
an ACTIVE, non-deleted user fail with the identical error value — same
Unauthorized kind, same "Invalid email or password" message, same field
detail — so those two runs are indistinguishable to the caller. -/
theorem C6_theorem :
    (∀ st now p, AuthRepository.findByEmailWithPassword st p.email = none →
      (AuthService.login now p st).1 =
        Except.error (AppError.unauthorized "Invalid email or password"
          [("email", "Invalid email or password")])) ∧
    (∀ st now p u,
      AuthRepository.findByEmailWithPassword st p.email = some u →
      u.isActive = true → u.isDeleted = false →
      comparePassword p.password u.password = false →
      (AuthService.login now p st).1 =
        Except.error (AppError.unauthorized "Invalid email or password"
          [("email", "Invalid email or password")])) := by
  constructor
  · intro st now p hnone
    unfold AuthService.login
    rw [hnone]
  · intro st now p u hsome hact hdel hcmp
    unfold AuthService.login
    rw [hsome]
    simp [hact, hdel, hcmp]

/-- Witness for C6 at concrete states exercising both runs. -/
theorem C6_witness :
    (AuthService.login 1000 { email := "z@x.com", password := "wrong" }
      { users := [] }).1 =
      Except.error (AppError.unauthorized "Invalid email or password"
        [("email", "Invalid email or password")]) ∧
    (AuthService.login 1000 { email := "a@x.com", password := "wrong" }
      { users := [wUser] }).1 =
      Except.error (AppError.unauthorized "Invalid email or password"
        [("email", "Invalid email or password")]) :=
  ⟨C6_theorem.1 { users := [] } 1000
      { email := "z@x.com", password := "wrong" } rfl,
    C6_theorem.2 { users := [wUser] } 1000
      { email := "a@x.com", password := "wrong" } wUser rfl rfl rfl rfl⟩

/-! ## C4 -/

def c4Tok : Jwt :=
  { kind := .refresh, id := "u1", email := "a@x.com", role := .USER
    iat := 0, exp := 1 }

def c4St : SysState := { users := [{ wUser with refreshToken := some c4Tok }] }

/-- C4 counterexample: logging out with an EXPIRED refresh token does not
clear the persisted refreshToken — `verifyRefreshToken` is called outside
any try/catch, so the call fails before `updateRefreshToken(userId, null)`
is reached and the state is unchanged. -/
theorem C4_counterexample :
    AuthService.logout 5000 "u1" c4Tok c4St =
      (Except.error
        { kind := .jwtError, message := "jwt invalid or expired" }, c4St) ∧
    ((c4St.users.find? (fun u => decide (u.id = "u1"))).map
      User.refreshToken = some (some c4Tok)) :=
  ⟨rfl, rfl⟩

/-- C4 (amended): when the refresh token verifies (valid and unexpired)
and the user exists, logout succeeds, blacklists the token with TTL equal
to its remaining lifetime in seconds, and clears the stored refreshToken;
when verification fails (expired or invalid token), logout fails with the
raw jwt error and the state — including the stored refreshToken — is
unchanged. -/
theorem C4_theorem :
    (∀ st now userId tok d, verifyRefreshToken tok now = Except.ok d →
      ((st.users.find? (fun u => decide (u.id = userId))).isSome = true) →
      (AuthService.logout now userId tok st).1 =
          Except.ok "Logged out successfully" ∧
        ((AuthService.logout now userId tok st).2.users.find?
          (fun u => decide (u.id = userId))).map User.refreshToken =
          some none ∧
        (tok, "1", now + (tok.exp - now / 1000) * 1000) ∈
          (AuthService.logout now userId tok st).2.cache.blacklist) ∧
    (∀ st now userId tok m, verifyRefreshToken tok now = Except.error m →
      AuthService.logout now userId tok st =
        (Except.error { kind := .jwtError, message := m }, st)) := by
  constructor
  · intro st now userId tok d hv hfound
    have hcond : tok.kind = TokKind.refresh ∧ now / 1000 < tok.exp := by
      unfold verifyRefreshToken at hv
      by_cases hc : tok.kind = TokKind.refresh ∧ now / 1000 < tok.exp
      · exact hc
      · rw [if_neg hc] at hv; exact absurd hv (by simp)
    have hd : d = tok := by
      unfold verifyRefreshToken at hv
      rw [if_pos hcond] at hv
      exact (Except.ok.injEq .. ▸ hv).symm
    subst hd
    have hpos : (0 : Int) < (d.exp : Int) - ((now / 1000 : Nat) : Int) := by
      have := hcond.2
      omega
    have htoNat : ((d.exp : Int) - ((now / 1000 : Nat) : Int)).toNat =
        d.exp - now / 1000 := by omega
    obtain ⟨v, users', hupd⟩ := updateFirst_isSome
      (fun u => { u with refreshToken := none }) hfound
    obtain ⟨w, hw, hvweq⟩ := updateFirst_eq_find? hupd
    have hqv : (fun u => decide (u.id = userId)) v = true := by
      have hpw := List.find?_some hw
      simp only [hvweq]
      simpa using hpw
    simp only [AuthService.logout, hv]
    rw [if_pos hpos]
    simp only [AuthRepository.updateRefreshToken,
      AuthRepository.blacklistToken, hupd]
    refine ⟨by trivial, ?_, ?_⟩
    · rw [find?_updateFirst hupd hqv]
      simp [hvweq]
    · simp only [tset, htoNat]
      exact List.mem_cons_self _ _
  · intro st now userId tok m hv
    unfold AuthService.logout
    rw [hv]

def w4Tok : Jwt :=
  { kind := .refresh, id := "u1", email := "a@x.com", role := .USER
    iat := 0, exp := 604800 }

/-- Witness for C4: a valid, unexpired token is blacklisted with its
remaining lifetime and the stored refreshToken is cleared. -/
theorem C4_witness :
    verifyRefreshToken w4Tok 5000 = Except.ok w4Tok ∧
    (([{ wUser with refreshToken := some w4Tok }] : List User).find?
      (fun u => decide (u.id = "u1"))).isSome = true ∧
    ((AuthService.logout 5000 "u1" w4Tok
        { users := [{ wUser with refreshToken := some w4Tok }] }).1 =
        Except.ok "Logged out successfully" ∧
      ((AuthService.logout 5000 "u1" w4Tok
          { users := [{ wUser with refreshToken := some w4Tok }] }).2.users.find?
        (fun u => decide (u.id = "u1"))).map User.refreshToken = some none ∧
      (w4Tok, "1", 5000 + (w4Tok.exp - 5000 / 1000) * 1000) ∈
        (AuthService.logout 5000 "u1" w4Tok
          { users := [{ wUser with refreshToken := some w4Tok }] }).2.cache.blacklist) :=
  ⟨rfl, rfl,
    C4_theorem.1 { users := [{ wUser with refreshToken := some w4Tok }] }
      5000 "u1" w4Tok w4Tok rfl rfl⟩

/-! ## C2 -/

/-- C2: after a `changePassword` whose current password verifies, the
persisted password is `hashPassword (hashPassword newPassword)` — the
service hashes explicitly AND the prisma `$extends` `user.update` hook
hashes the already-hashed value again — so `comparePassword` with the new
password FAILS afterward, contradicting the claimed round-trip. -/
theorem C2_theorem (st : SysState) (now : Nat) (userId : String)
    (p : ChangePasswordInput) (u : User)
    (hmiss : tget st.cache.userById now userId = none)
    (hfind : st.users.find? (fun v => decide (v.id = userId)) = some u)
    (hemail : st.users.find? (fun v => decide (v.email = u.email)) = some u)
    (hid : u.id = userId)
    (hcur : comparePassword p.currentPassword u.password = true) :
    ∃ u', (AuthService.changePassword now userId p st).1 =
        Except.ok (AuthDto.toResponse u') ∧
      ((AuthService.changePassword now userId p st).2.users.find?
        (fun v => decide (v.email = u.email))) = some u' ∧
      u'.password = hashPassword (hashPassword p.newPassword) ∧
      comparePassword p.newPassword u'.password = false := by
  have hsome : ((st.users.find?
      (fun v => decide (v.email = u.email))).isSome = true) := by
    rw [hemail]; rfl
  obtain ⟨v, users', hupd⟩ := updateFirst_isSome
    (fun w => { w with password := hashPassword (hashPassword p.newPassword),
                       otpCode := none, otpExpiresAt := none }) hsome
  obtain ⟨w, hw, hveq⟩ := updateFirst_eq_find? hupd
  have hwu : w = u := by
    rw [hemail] at hw
    exact (Option.some.injEq .. ▸ hw).symm
  rw [hwu] at hveq
  have hqv : (fun x => decide (x.email = u.email)) v = true := by
    simp [hveq]
  refine ⟨v, ?_⟩
  simp only [AuthService.changePassword, AuthRepository.findById, hmiss,
    hfind, AuthRepository.findByEmailWithPassword]
  simp only [hemail, hid, ne_eq, not_true_eq_false, if_false, hcur]
  simp only [AuthRepository.updatePassword, hupd]
  refine ⟨by trivial, ?_, ?_, ?_⟩
  · simpa using find?_updateFirst hupd hqv
  · rw [hveq]
  · rw [hveq]
    exact comparePassword_double_hash p.newPassword

def c2User : User :=
  { id := "u1", username := "alice", email := "a@x.com"
    password := hashPassword "oldpw", isEmailVerified := true }

/-- Witness for C2: the double hash at a concrete state. -/
theorem C2_witness :
    tget (SysState.cache { users := [c2User] }).userById 1000 "u1" = none ∧
    comparePassword "oldpw" c2User.password = true ∧
    ∃ u', (AuthService.changePassword 1000 "u1"
        { currentPassword := "oldpw", newPassword := "newpw" }
        { users := [c2User] }).1 = Except.ok (AuthDto.toResponse u') ∧
      ((AuthService.changePassword 1000 "u1"
        { currentPassword := "oldpw", newPassword := "newpw" }
        { users := [c2User] }).2.users.find?
        (fun v => decide (v.email = c2User.email))) = some u' ∧
      u'.password = hashPassword (hashPassword "newpw") ∧
      comparePassword "newpw" u'.password = false :=
  ⟨rfl, by decide,
    C2_theorem { users := [c2User] } 1000 "u1"
      { currentPassword := "oldpw", newPassword := "newpw" } c2User
      rfl rfl rfl rfl (by decide)⟩

/-! ## C9 -/

/-- The tail of `convertGuestToRegistered` ignores the email outcome: the
send is inside try/catch and both branches only log. -/
theorem convertGuestStage2_email_indep (now : Nat) (otpCode userId : String)
    (p : ConvertGuestInput) (user : User) (st : SysState) :
    convertGuestStage2 now true otpCode userId p user st =
      convertGuestStage2 now false otpCode userId p user st := by
  unfold convertGuestStage2
  cases AuthRepository.updateProfile st userId
      { email := some p.email, password := some p.password
        username := some (jsOr p.username user.username)
        signupMethod := some SignupMethod.EMAIL } with
  | mk r st1 =>
    cases r with
    | error e => rfl
    | ok _ =>
      cases hu : updateFirst (fun u => decide (u.id = userId))
          (fun u => { u with userType := UserType.REGISTERED,
                             isEmailVerified := false }) st1.users with
      | none => rfl
      | some r2 =>
        obtain ⟨finalUser, users'⟩ := r2
        cases AuthRepository.updateRefreshToken { st1 with users := users' }
            finalUser.id
            (some (generateTokens { id := finalUser.id
                                    email := finalUser.email
                                    role := finalUser.role } now).refreshToken) with
        | mk r3 st3 =>
          cases r3 with
          | error e => rfl
          | ok _ =>
            cases AuthRepository.updateOtp st3 p.email otpCode
                (now + 10 * 60 * 1000) with
            | mk r4 st4 =>
              cases r4 with
              | error e => rfl
              | ok _ => rfl

/-- C9: the verification-email send is non-fatal for signup and for
convertGuestToRegistered (identical result and state whether the transport
succeeds or throws), while for resendOtp and forgotPassword a send failure
is fatal and surfaces as BadRequest. -/
theorem C9_theorem :
    (∀ now newId otpCode p st,
      AuthService.signup now true newId otpCode p st =
        AuthService.signup now false newId otpCode p st) ∧
    (∀ now otpCode userId p st,
      AuthService.convertGuestToRegistered now true otpCode userId p st =
        AuthService.convertGuestToRegistered now false otpCode userId p st) ∧
    (∀ now otpCode p st r,
      (AuthService.resendOtp now true otpCode p st).1 = Except.ok r →
      (AuthService.resendOtp now false otpCode p st).1 =
        Except.error (AppError.badRequest "Failed to send OTP email")) ∧
    (∀ now otpCode email st r,
      (AuthService.forgotPassword now true otpCode email st).1 =
        Except.ok r →
      (AuthService.forgotPassword now false otpCode email st).1 =
        Except.error
          (AppError.badRequest "Failed to send password reset email")) := by
  refine ⟨?_, ?_, ?_, ?_⟩
  · intro now newId otpCode p st
    unfold AuthService.signup
    cases AuthRepository.findByEmail st now p.email true with
    | mk o st1 =>
      cases o with
      | some u => rfl
      | none =>
        cases AuthRepository.create st1 now newId
            { username := p.username, email := p.email, phone := p.phone
              password := p.password, signupMethod := p.signupMethod } with
        | mk r st2 =>
          cases r with
          | error e => rfl
          | ok user =>
            cases AuthRepository.updateOtp st2 p.email otpCode
                (now + 10 * 60 * 1000) with
            | mk r2 st3 =>
              cases r2 with
              | error e => rfl
              | ok _ => rfl
  · intro now otpCode userId p st
    unfold AuthService.convertGuestToRegistered
    cases AuthRepository.findById st now userId with
    | mk o st1 =>
      cases o with
      | none => rfl
      | some user =>
        by_cases hg : user.userType = UserType.GUEST
        · simp only [hg]
          cases AuthRepository.findByEmail st1 now p.email true with
          | mk o2 st2 =>
            cases o2 with
            | none =>
              simpa using convertGuestStage2_email_indep now otpCode userId
                p user st2
            | some existing =>
              by_cases hx : existing.id = userId
              · simp only [hx]
                simpa using convertGuestStage2_email_indep now otpCode
                  userId p user st2
              · simp only [ne_eq, hx, not_false_eq_true, if_true]
        · simp only [ne_eq, hg, not_false_eq_true, if_true]
  · intro now otpCode p st r h
    unfold AuthService.resendOtp at h ⊢
    split at h
    · simp at h
    · split at h
      · simp at h
      · simp [*, sendEmail]
  · intro now otpCode email st r h
    unfold AuthService.forgotPassword at h ⊢
    split at h
    · simp at h
    · split at h
      · simp at h
      · simp [*, sendEmail]

/-- Witness for C9: concrete runs exercising each conjunct. -/
theorem C9_witness :
    (AuthService.signup 1000 true "u9" "111111"
        { username := "n", email := "n@x.com", password := "pw" }
        { users := [] } =
      AuthService.signup 1000 false "u9" "111111"
        { username := "n", email := "n@x.com", password := "pw" }
        { users := [] }) ∧
    (AuthService.convertGuestToRegistered 1000 true "333333" "zz"
        { email := "g@x.com", password := "pw" } { users := [] } =
      AuthService.convertGuestToRegistered 1000 false "333333" "zz"
        { email := "g@x.com", password := "pw" } { users := [] }) ∧
    ((AuthService.resendOtp 1000 false "222222"
        { email := "a@x.com", type := .emailVerification }
        { users := [wUser] }).1 =
      Except.error (AppError.badRequest "Failed to send OTP email")) ∧
    ((AuthService.forgotPassword 1000 false "222222" "a@x.com"
        { users := [wUser] }).1 =
      Except.error (AppError.badRequest "Failed to send password reset email")) :=
  ⟨C9_theorem.1 1000 "u9" "111111"
      { username := "n", email := "n@x.com", password := "pw" }
      { users := [] },
    C9_theorem.2.1 1000 "333333" "zz"
      { email := "g@x.com", password := "pw" } { users := [] },
    C9_theorem.2.2.1 1000 "222222"
      { email := "a@x.com", type := .emailVerification }
      { users := [wUser] } "a@x.com" rfl,
    C9_theorem.2.2.2 1000 "222222" "a@x.com"
      { users := [wUser] } "a@x.com" rfl⟩

/-! ## C7 -/

def c7User : User :=
  { id := "u4", username := "dave", email := "d@x.com"
    password := hashPassword "pw", isEmailVerified := false
    userType := .REGISTERED }

def c7Cached : SessionUser :=
  { id := "u4", username := "dave", email := "d@x.com", role := .USER
    userType := .REGISTERED, isEmailVerified := true, isActive := true }

def c7Tok : Jwt :=
  { kind := .access, id := "u4", email := "d@x.com", role := .USER
    iat := 0, exp := 100000 }

def c7St : SysState :=
  { users := [c7User]
    cache := { authUser := [("u4", c7Cached, 1000000000)] } }

/-- C7 counterexample: with a (stale) middleware user-projection cache
entry for the id, `authenticate` accepts an existing, active, non-deleted
user whose current record has `isEmailVerified = false` and
`userType ≠ GUEST` — the cached projection short-circuits every user
check, so the request does not fail Unauthorized as claimed. -/
theorem C7_counterexample :
    c7User.isEmailVerified = false ∧ c7User.userType ≠ UserType.GUEST ∧
    c7User.isActive = true ∧ c7User.isDeleted = false ∧
    verifyToken c7Tok 1000 = Except.ok c7Tok ∧
    (authenticate 1000 (some c7Tok) c7St).1 = Except.ok c7Cached :=
  ⟨rfl, by decide, rfl, rfl, rfl, rfl⟩

/-- C7 (amended): provided the middleware's user-projection cache has no
entry for the decoded id, `authenticate` behaves exactly as claimed:
absent, blacklisted, unverifiable tokens and empty id claims fail
Unauthorized; a missing user fails Unauthorized; an inactive or deleted
user fails Forbidden; an unverified non-guest fails Unauthorized; and a
guest is accepted regardless of `isEmailVerified`. -/
theorem C7_theorem :
    (∀ st now, (authenticate now none st).1 =
      Except.error
        (AppError.unauthorized "Authentication required. Please login.")) ∧
    (∀ st now tok, AuthRepository.isTokenBlacklisted st now tok = true →
      (authenticate now (some tok) st).1 =
        Except.error (AppError.unauthorized
          "Token has been revoked. Please login again.")) ∧
    (∀ st now tok m, AuthRepository.isTokenBlacklisted st now tok = false →
      verifyToken tok now = Except.error m →
      (authenticate now (some tok) st).1 =
        Except.error (AppError.unauthorized
          "Invalid or expired token. Please login again.")) ∧
    (∀ st now tok, AuthRepository.isTokenBlacklisted st now tok = false →
      verifyToken tok now = Except.ok tok → tok.id = "" →
      (authenticate now (some tok) st).1 =
        Except.error (AppError.unauthorized "Invalid token payload.")) ∧
    (∀ st now tok, AuthRepository.isTokenBlacklisted st now tok = false →
      verifyToken tok now = Except.ok tok → tok.id ≠ "" →
      tget st.cache.authUser now tok.id = none →
      (AuthRepository.findById st now tok.id).1 = none →
      (authenticate now (some tok) st).1 =
        Except.error (AppError.unauthorized
          "User not found. Please login again.")) ∧
    (∀ st now tok u, AuthRepository.isTokenBlacklisted st now tok = false →
      verifyToken tok now = Except.ok tok → tok.id ≠ "" →
      tget st.cache.authUser now tok.id = none →
      (AuthRepository.findById st now tok.id).1 = some u →
      (u.isActive = false ∨ u.isDeleted = true) →
      (authenticate now (some tok) st).1 =
        Except.error
          (AppError.forbidden "Account is deactivated or deleted.")) ∧
    (∀ st now tok u, AuthRepository.isTokenBlacklisted st now tok = false →
      verifyToken tok now = Except.ok tok → tok.id ≠ "" →
      tget st.cache.authUser now tok.id = none →
      (AuthRepository.findById st now tok.id).1 = some u →
      u.isActive = true → u.isDeleted = false →
      u.isEmailVerified = false → u.userType ≠ UserType.GUEST →
      (authenticate now (some tok) st).1 =
        Except.error (AppError.unauthorized
          "Please verify your email before accessing this resource.")) ∧
    (∀ st now tok u, AuthRepository.isTokenBlacklisted st now tok = false →
      verifyToken tok now = Except.ok tok → tok.id ≠ "" →
      tget st.cache.authUser now tok.id = none →
      (AuthRepository.findById st now tok.id).1 = some u →
      u.isActive = true → u.isDeleted = false → u.userType = UserType.GUEST →
      (authenticate now (some tok) st).1 = Except.ok
        { id := u.id, username := u.username, email := u.email
          role := u.role, userType := u.userType
          isEmailVerified := u.isEmailVerified, isActive := u.isActive }) := by
  refine ⟨?_, ?_, ?_, ?_, ?_, ?_, ?_, ?_⟩
  · intro st now
    rfl
  · intro st now tok hbl
    unfold authenticate
    simp [hbl]
  · intro st now tok m hbl hv
    unfold authenticate
    simp [hbl, hv]
  · intro st now tok hbl hv hid
    unfold authenticate
    simp [hbl, hv, hid]
  · intro st now tok hbl hv hid hmiss hfind
    rcases hfb : AuthRepository.findById st now tok.id with ⟨o, st1⟩
    rw [hfb] at hfind
    simp only at hfind
    subst hfind
    unfold authenticate
    simp [hbl, hv, hid, hmiss, hfb]
  · intro st now tok u hbl hv hid hmiss hfind hforb
    rcases hfb : AuthRepository.findById st now tok.id with ⟨o, st1⟩
    rw [hfb] at hfind
    simp only at hfind
    subst hfind
    unfold authenticate
    rcases hforb with hio | hdel
    · simp [hbl, hv, hid, hmiss, hfb, hio]
    · simp [hbl, hv, hid, hmiss, hfb, hdel]
  · intro st now tok u hbl hv hid hmiss hfind hact hdel hver hng
    rcases hfb : AuthRepository.findById st now tok.id with ⟨o, st1⟩
    rw [hfb] at hfind
    simp only at hfind
    subst hfind
    unfold authenticate
    simp [hbl, hv, hid, hmiss, hfb, hact, hdel, hver, hng]
  · intro st now tok u hbl hv hid hmiss hfind hact hdel hguest
    rcases hfb : AuthRepository.findById st now tok.id with ⟨o, st1⟩
    rw [hfb] at hfind
    simp only at hfind
    subst hfind
    unfold authenticate
    simp [hbl, hv, hid, hmiss, hfb, hact, hdel, hguest]

def c7Guest : User :=
  { id := "u5", username := "gg", email := "g@x.com"
    password := hashPassword "pw", isEmailVerified := false
    userType := .GUEST }

def c7GTok : Jwt :=
  { kind := .access, id := "u5", email := "g@x.com", role := .USER
    iat := 0, exp := 100000 }

def c7BadTok : Jwt :=
  { kind := .access, id := "u4", email := "d@x.com", role := .USER
    iat := 0, exp := 0 }

def c7EmptyIdTok : Jwt :=
  { kind := .access, id := "", email := "", role := .USER
    iat := 0, exp := 100000 }

def c7ZTok : Jwt :=
  { kind := .access, id := "zz", email := "z@x.com", role := .USER
    iat := 0, exp := 100000 }

/-- Witness for C7: every branch of the amended theorem at concrete
inputs. -/
theorem C7_witness :
    (authenticate 1000 none { users := [c7User] }).1 =
      Except.error
        (AppError.unauthorized "Authentication required. Please login.") ∧
    (authenticate 1000 (some c7Tok)
        { users := []
          cache := { blacklist := [(c7Tok, "1", 1000000000)] } }).1 =
      Except.error (AppError.unauthorized
        "Token has been revoked. Please login again.") ∧
    (authenticate 1000 (some c7BadTok) { users := [c7User] }).1 =
      Except.error (AppError.unauthorized
        "Invalid or expired token. Please login again.") ∧
    (authenticate 1000 (some c7EmptyIdTok) { users := [c7User] }).1 =
      Except.error (AppError.unauthorized "Invalid token payload.") ∧
    (authenticate 1000 (some c7ZTok) { users := [] }).1 =
      Except.error
        (AppError.unauthorized "User not found. Please login again.") ∧
    (authenticate 1000 (some c7Tok)
        { users := [{ c7User with isEmailVerified := true
                                  isActive := false }] }).1 =
      Except.error (AppError.forbidden "Account is deactivated or deleted.") ∧
    (authenticate 1000 (some c7Tok) { users := [c7User] }).1 =
      Except.error (AppError.unauthorized
        "Please verify your email before accessing this resource.") ∧
    (authenticate 1000 (some c7GTok) { users := [c7Guest] }).1 =
      Except.ok
        { id := c7Guest.id, username := c7Guest.username
          email := c7Guest.email, role := c7Guest.role
          userType := c7Guest.userType
          isEmailVerified := c7Guest.isEmailVerified
          isActive := c7Guest.isActive } :=
  ⟨C7_theorem.1 { users := [c7User] } 1000,
    C7_theorem.2.1 _ 1000 c7Tok rfl,
    C7_theorem.2.2.1 { users := [c7User] } 1000 c7BadTok
      "jwt invalid or expired" rfl rfl,
    C7_theorem.2.2.2.1 { users := [c7User] } 1000 c7EmptyIdTok rfl rfl rfl,
    C7_theorem.2.2.2.2.1 { users := [] } 1000 c7ZTok rfl rfl
      (by decide) rfl rfl,
    C7_theorem.2.2.2.2.2.1 _ 1000 c7Tok
      { c7User with isEmailVerified := true, isActive := false }
      rfl rfl (by decide) rfl rfl (Or.inl rfl),
    C7_theorem.2.2.2.2.2.2.1 { users := [c7User] } 1000 c7Tok c7User
      rfl rfl (by decide) rfl rfl rfl rfl rfl (by decide),
    C7_theorem.2.2.2.2.2.2.2 { users := [c7Guest] } 1000 c7GTok c7Guest
      rfl rfl (by decide) rfl rfl rfl rfl rfl⟩

/-! ## C1 -/

/-- The cache-primary success condition of the verify-otp gate: the staged
cache entry for (email, type) equals the supplied code (nonempty, since
the empty string is falsy in the JS check). -/
def otpCacheHit (st : SysState) (now : Nat) (email otp : String)
    (ty : OtpType) : Prop :=
  AuthRepository.getOtpCache st now email ty = some otp ∧ otp ≠ ""

/-- The database-fallback success condition: the freshly loaded user's
stored otpCode equals the supplied code and otpExpiresAt is not past. -/
def otpDbFallback (st : SysState) (now : Nat) (email otp : String) : Prop :=
  ∃ u, st.users.find? (fun v => decide (v.email = email)) = some u ∧
    u.otpCode = some otp ∧ otp ≠ "" ∧
    ∃ t, u.otpExpiresAt = some t ∧ ¬ t < now

/-- The gate passes iff the cache-primary check or the database fallback
succeeds. -/
theorem otpGate_none_iff (st : SysState) (now : Nat) (email otp : String)
    (ty : OtpType) :
    otpGate st now email otp ty = none ↔
      (otpCacheHit st now email otp ty ∨ otpDbFallback st now email otp) := by
  unfold otpGate otpCacheHit otpDbFallback AuthRepository.findByEmail
  by_cases hc : AuthRepository.getOtpCache st now email ty = some otp ∧
      otp ≠ ""
  · simp [hc]
  · rw [if_neg hc]
    simp only [Bool.false_eq_true, if_false]
    cases hf : st.users.find? (fun v => decide (v.email = email)) with
    | none => simp [hf, hc]
    | some u =>
      by_cases hu : u.otpCode = some otp ∧ otp ≠ ""
      · cases he : u.otpExpiresAt with
        | none =>
          simp [hc, hu, he]
          exact fun hA => hc ⟨hA, hu.2⟩
        | some t =>
          by_cases ht : t < now
          · simp [hc, hu, he, ht]
            exact fun hA => hc ⟨hA, hu.2⟩
          · simp [hc, hu, he, ht]
            exact Or.inr (by omega)
      · simp [hc, hu]
        exact fun hA hB => absurd ⟨hA, hB⟩ hu

theorem find?_isSome_of_mem {α : Type} {p : α → Bool} {l : List α} {x : α}
    (hm : x ∈ l) (hp : p x = true) : (l.find? p).isSome = true := by
  induction l with
  | nil => cases hm
  | cons y ys ih =>
    by_cases hy : p y = true
    · simp [List.find?_cons_of_pos _ hy]
    · rw [List.find?_cons_of_neg _ (by simp [hy])]
      rcases List.mem_cons.mp hm with h | h
      · subst h; exact absurd hp hy
      · exact ih h

/-- Refresh-token updates leave every user's otpCode (as observed through
an email lookup) unchanged. -/
theorem find?_otpCode_after_refresh_update {rt : Option Jwt}
    {l l' : List User} {v : User} {pid : String} (email : String)
    (h : updateFirst (fun u => decide (u.id = pid))
      (fun u => { u with refreshToken := rt }) l = some (v, l')) :
    (l'.find? (fun u : User => decide (u.email = email))).map User.otpCode =
      (l.find? (fun u : User => decide (u.email = email))).map
        User.otpCode :=
  find?_map_updateFirst (fun u : User => decide (u.email = email))
    User.otpCode h (fun _ => rfl) (fun _ => rfl)

/-- C1 counterexample: the first verifyOtp(forgotPassword) succeeds, and a
second call with the same (email, otp, type) succeeds AGAIN — consuming
the cache entry leaves the user's stored otpCode in place, and the second
call passes via the database fallback. -/
theorem C1_counterexample :
    (AuthService.verifyOtp 1000
      { email := "a@x.com", otp := "123456", type := .forgotPassword }
      c1St).1 = Except.ok (VerifyOtpResult.verified true "a@x.com") ∧
    (AuthService.verifyOtp 1000
      { email := "a@x.com", otp := "123456", type := .forgotPassword }
      (AuthService.verifyOtp 1000
        { email := "a@x.com", otp := "123456", type := .forgotPassword }
        c1St).2).1 = Except.ok (VerifyOtpResult.verified true "a@x.com") :=
  ⟨rfl, rfl⟩

/-- C1 (amended): verifyOtp succeeds iff the cache-primary check or the
database fallback passes (for emailVerification a user record must also
exist for the verified-update to go through); after a successful
emailVerification verify a second call with the same inputs always fails
with BadRequest("Invalid or expired OTP code") — but (per the
counterexample) NOT after a successful forgotPassword verify, whose
database copy survives. -/
theorem C1_theorem :
    (∀ st now email otp,
      ((∃ r, (AuthService.verifyOtp now
          { email := email, otp := otp, type := .forgotPassword } st).1 =
        Except.ok r) ↔
      (otpCacheHit st now email otp .forgotPassword ∨
        otpDbFallback st now email otp))) ∧
    (∀ st now email otp,
      ((∃ r, (AuthService.verifyOtp now
          { email := email, otp := otp, type := .emailVerification } st).1 =
        Except.ok r) ↔
      ((otpCacheHit st now email otp .emailVerification ∧
          (st.users.find? (fun v => decide (v.email = email))).isSome =
            true) ∨
        otpDbFallback st now email otp))) ∧
    (∀ st now₁ now₂ email otp r st',
      AuthService.verifyOtp now₁
          { email := email, otp := otp, type := .emailVerification } st =
        (Except.ok r, st') →
      (AuthService.verifyOtp now₂
          { email := email, otp := otp, type := .emailVerification } st').1 =
        Except.error (AppError.badRequest "Invalid or expired OTP code"
          [("otp", "Invalid or expired OTP code")])) := by
  refine ⟨?_, ?_, ?_⟩
  · intro st now email otp
    constructor
    · rintro ⟨r, hr⟩
      by_cases hg : otpGate st now email otp OtpType.forgotPassword = none
      · exact (otpGate_none_iff st now email otp .forgotPassword).mp hg
      · obtain ⟨e, he⟩ := Option.ne_none_iff_exists'.mp hg
        unfold AuthService.verifyOtp at hr
        rw [he] at hr
        simp at hr
    · intro h
      have hg := (otpGate_none_iff st now email otp .forgotPassword).mpr h
      refine ⟨VerifyOtpResult.verified true email, ?_⟩
      unfold AuthService.verifyOtp
      rw [hg]
  · intro st now email otp
    constructor
    · rintro ⟨r, hr⟩
      by_cases hg : otpGate st now email otp OtpType.emailVerification = none
      · have hgate :=
          (otpGate_none_iff st now email otp .emailVerification).mp hg
        unfold AuthService.verifyOtp at hr
        rw [hg] at hr
        simp only [AuthRepository.verifyEmail] at hr
        cases hup : updateFirst (fun v => decide (v.email = email))
            (fun u => { u with isEmailVerified := true, otpCode := none,
                               otpExpiresAt := none }) st.users with
        | none =>
          rw [hup] at hr
          simp at hr
        | some pr =>
          obtain ⟨w, hw, hveq⟩ := updateFirst_eq_find? hup
          have hsome : (st.users.find?
              (fun v => decide (v.email = email))).isSome = true := by
            rw [hw]; rfl
          rcases hgate with hhit | hdb
          · exact Or.inl ⟨hhit, hsome⟩
          · exact Or.inr hdb
      · obtain ⟨e, he⟩ := Option.ne_none_iff_exists'.mp hg
        unfold AuthService.verifyOtp at hr
        rw [he] at hr
        simp at hr
    · intro h
      have hg : otpGate st now email otp OtpType.emailVerification = none := by
        apply (otpGate_none_iff st now email otp .emailVerification).mpr
        rcases h with ⟨hhit, _⟩ | hdb
        · exact Or.inl hhit
        · exact Or.inr hdb
      have hsome : (st.users.find?
          (fun v => decide (v.email = email))).isSome = true := by
        rcases h with ⟨_, hs⟩ | ⟨u, hu, _⟩
        · exact hs
        · rw [hu]; rfl
      obtain ⟨u', users₁, hup⟩ := updateFirst_isSome
        (fun u => { u with isEmailVerified := true, otpCode := none,
                           otpExpiresAt := none }) hsome
      have hmem : u' ∈ users₁ := updateFirst_mem hup
      have hid : (users₁.find?
          (fun v => decide (v.id = u'.id))).isSome = true :=
        find?_isSome_of_mem hmem (by simp)
      obtain ⟨v, users₂, hup2⟩ := updateFirst_isSome
        (fun u => { u with refreshToken := some (generateTokens
          { id := u'.id, email := u'.email, role := u'.role }
          now).refreshToken }) hid
      refine ⟨VerifyOtpResult.loggedIn (AuthDto.toLoginResponse u'
        (generateTokens { id := u'.id, email := u'.email, role := u'.role }
          now)), ?_⟩
      unfold AuthService.verifyOtp
      rw [hg]
      simp only [AuthRepository.verifyEmail, hup,
        AuthRepository.deleteOtpCache, AuthRepository.updateRefreshToken]
      simp only [hup2]
  · intro st now₁ now₂ email otp r st' h1
    unfold AuthService.verifyOtp at h1
    cases hg : otpGate st now₁ email otp OtpType.emailVerification with
    | some e => rw [hg] at h1; exact absurd h1 (by simp)
    | none =>
      rw [hg] at h1
      simp only [AuthRepository.verifyEmail, AuthRepository.deleteOtpCache,
        AuthRepository.updateRefreshToken] at h1
      cases hup : updateFirst (fun v => decide (v.email = email))
          (fun u => { u with isEmailVerified := true, otpCode := none,
                             otpExpiresAt := none }) st.users with
      | none => rw [hup] at h1; exact absurd h1 (by simp)
      | some pr =>
        obtain ⟨u', users₁⟩ := pr
        rw [hup] at h1
        simp only at h1
        cases hup2 : updateFirst (fun v => decide (v.id = u'.id))
            (fun u => { u with refreshToken := some (generateTokens
              { id := u'.id, email := u'.email, role := u'.role }
              now₁).refreshToken }) users₁ with
        | none => rw [hup2] at h1; exact absurd h1 (by simp)
        | some pr2 =>
          obtain ⟨v, users₂⟩ := pr2
          rw [hup2] at h1
          simp only [Prod.mk.injEq] at h1
          obtain ⟨hok, hst⟩ := h1
          subst hst
          obtain ⟨w, hw, hveq⟩ := updateFirst_eq_find? hup
          have hwem := List.find?_some hw
          have hu'email : u'.email = w.email := by rw [hveq]
          have hu'code : u'.otpCode = none := by rw [hveq]
          have hfind1 : users₁.find?
              (fun x => decide (x.email = email)) = some u' := by
            apply find?_updateFirst hup
            rw [hveq]
            simpa using hwem
          have hmap := find?_otpCode_after_refresh_update email hup2
          rw [hfind1] at hmap
          simp [hu'code] at hmap
          cases hf2 : users₂.find? (fun x => decide (x.email = email)) with
          | none => simp [hf2] at hmap
          | some u₂ =>
            simp [hf2] at hmap
            unfold AuthService.verifyOtp otpGate
              AuthRepository.getOtpCache AuthRepository.findByEmail
            simp [tget_tdel_self, hf2, hmap]

/-- Witness for C1: a concrete successful emailVerification verify whose
repeat (at a later time) is rejected. -/
theorem C1_witness :
    (AuthService.verifyOtp 2000
      { email := "a@x.com", otp := "123456", type := .emailVerification }
      (AuthService.verifyOtp 1000
        { email := "a@x.com", otp := "123456", type := .emailVerification }
        { users := [c1User] }).2).1 =
      Except.error (AppError.badRequest "Invalid or expired OTP code"
        [("otp", "Invalid or expired OTP code")]) :=
  C1_theorem.2.2 { users := [c1User] } 1000 2000 "a@x.com" "123456"
    _ _ rfl

/-! ## C3 -/

theorem tget_mem {κ α : Type} [DecidableEq κ] {m : List (κ × α × Nat)}
    {now : Nat} {k : κ} {v : α} (h : tget m now k = some v) :
    ∃ e ∈ m, e.1 = k ∧ e.2.1 = v := by
  unfold tget at h
  cases hf : m.find? (fun e => decide (e.1 = k)) with
  | none => rw [hf] at h; exact absurd h (by simp)
  | some e =>
    rw [hf] at h
    by_cases ht : now < e.2.2
    · have h2 : (if now < e.2.2 then some e.2.1 else none) = some v := h
      rw [if_pos ht] at h2
      refine ⟨e, List.mem_of_find?_eq_some hf, ?_, ?_⟩
      · simpa using List.find?_some hf
      · exact Option.some.injEq .. ▸ h2
    · have h2 : (if now < e.2.2 then some e.2.1 else none) = some v := h
      rw [if_neg ht] at h2
      exact absurd h2 (by simp)

/-- Well-formedness of the id-keyed user cache: every entry stores a user
under that user's own id (the repository only writes such entries). -/
def userByIdCacheWF (st : SysState) : Prop :=
  ∀ e ∈ st.cache.userById, (e.2.1 : User).id = e.1

/-- What a successful `findById` guarantees: the returned user carries the
looked-up id (given a well-formed cache) and the lookup changes neither
the user table nor the otp/blacklist caches. -/
theorem findById_ok {st : SysState} {now : Nat} {id : String} {u : User}
    {st1 : SysState} (hwf : userByIdCacheWF st)
    (h : AuthRepository.findById st now id = (some u, st1)) :
    u.id = id ∧ st1.users = st.users ∧ st1.cache.otp = st.cache.otp ∧
      st1.cache.blacklist = st.cache.blacklist := by
  unfold AuthRepository.findById at h
  cases hc : tget st.cache.userById now id with
  | some cu =>
    rw [hc] at h
    obtain ⟨ho, hst⟩ := Prod.mk.injEq .. ▸ h
    have hu : cu = u := Option.some.injEq .. ▸ ho
    subst hu
    obtain ⟨e, hmem, hk, hv⟩ := tget_mem hc
    have hwfe := hwf e hmem
    refine ⟨by rw [← hv, hwfe, hk], ?_, ?_, ?_⟩ <;> rw [← hst]
  | none =>
    rw [hc] at h
    cases hf : st.users.find? (fun v => decide (v.id = id)) with
    | none => rw [hf] at h; exact absurd h (by simp)
    | some w =>
      rw [hf] at h
      obtain ⟨ho, hst⟩ := Prod.mk.injEq .. ▸ h
      have hw : w = u := Option.some.injEq .. ▸ ho
      subst hw
      have hid := List.find?_some hf
      refine ⟨by simpa using hid, ?_, ?_, ?_⟩ <;> rw [← hst]

/-- C3: if refreshToken(tokenA) succeeds, returning and persisting a NEW
refresh token (≠ tokenA), then a later refreshToken(tokenA) call against
the resulting state always fails with an Unauthorized error. -/
theorem C3_theorem (st : SysState) (now₁ now₂ : Nat) (tokA : Jwt)
    (res : LoginResponse) (st' : SysState)
    (hwf : userByIdCacheWF st)
    (h1 : AuthService.refreshToken now₁ tokA st = (Except.ok res, st'))
    (hle : now₁ ≤ now₂)
    (hnew : res.token.refreshToken ≠ tokA) :
    ∃ e, (AuthService.refreshToken now₂ tokA st').1 = Except.error e ∧
      e.kind = ErrKind.unauthorized := by
  unfold AuthService.refreshToken at h1
  by_cases hbl : AuthRepository.isTokenBlacklisted st now₁ tokA = true
  · rw [if_pos hbl] at h1; exact absurd h1 (by simp)
  · rw [if_neg hbl] at h1
    have hba : tget st.cache.blacklist now₁ tokA = none := by
      unfold AuthRepository.isTokenBlacklisted at hbl
      cases ht : tget st.cache.blacklist now₁ tokA with
      | none => rfl
      | some x => rw [ht] at hbl; simp at hbl
    cases hv : verifyRefreshToken tokA now₁ with
    | error m => rw [hv] at h1; exact absurd h1 (by simp)
    | ok d =>
      rw [hv] at h1
      have hcond : tokA.kind = TokKind.refresh ∧ now₁ / 1000 < tokA.exp := by
        unfold verifyRefreshToken at hv
        by_cases hc : tokA.kind = TokKind.refresh ∧ now₁ / 1000 < tokA.exp
        · exact hc
        · rw [if_neg hc] at hv; exact absurd hv (by simp)
      have hd : d = tokA := by
        unfold verifyRefreshToken at hv
        rw [if_pos hcond] at hv
        exact (Except.ok.injEq .. ▸ hv).symm
      rw [hd] at h1
      simp only at h1
      rcases hfb : AuthRepository.findById st now₁ tokA.id with ⟨o, st1⟩
      rw [hfb] at h1
      cases o with
      | none => simp at h1
      | some user =>
        simp only at h1
        obtain ⟨hidu, husers, hotp, hblk⟩ := findById_ok hwf hfb
        by_cases hr1 : user.refreshToken = some tokA
        · rw [if_neg (by simp [hr1])] at h1
          by_cases hact : user.isActive = false ∨ user.isDeleted = true
          · rw [if_pos hact] at h1; exact absurd h1 (by simp)
          · rw [if_neg hact] at h1
            simp only [AuthRepository.updateRefreshToken] at h1
            cases hup : updateFirst (fun v => decide (v.id = user.id))
                (fun u => { u with refreshToken := some (generateTokens
                  { id := user.id, email := user.email, role := user.role }
                  now₁).refreshToken }) st1.users with
            | none => rw [hup] at h1; exact absurd h1 (by simp)
            | some pr =>
              obtain ⟨v, users₂⟩ := pr
              rw [hup] at h1
              simp only [Prod.mk.injEq] at h1
              obtain ⟨hok, hst⟩ := h1
              subst hst
              have hres : res = AuthDto.toLoginResponse user
                  (generateTokens { id := user.id, email := user.email
                                    role := user.role } now₁) :=
                (Except.ok.injEq .. ▸ hok).symm
              have hnew2 : (generateTokens
                  { id := user.id, email := user.email, role := user.role }
                  now₁).refreshToken ≠ tokA := by
                intro hcontra
                apply hnew
                rw [hres]
                exact hcontra
              have hbl2 : tget st.cache.blacklist now₂ tokA = none :=
                tget_none_mono hba hle
              have hf2 : users₂.find?
                  (fun x => decide (x.id = tokA.id)) = some v := by
                have hpred : (fun x : User => decide (x.id = tokA.id)) =
                    (fun x : User => decide (x.id = user.id)) := by
                  funext x; rw [hidu]
                rw [hpred]
                apply find?_updateFirst hup
                obtain ⟨w, hw, hveq⟩ := updateFirst_eq_find? hup
                have hpw := List.find?_some hw
                rw [hveq]
                simpa using hpw
              obtain ⟨w, hw, hveq⟩ := updateFirst_eq_find? hup
              have hbl3 : (tget st1.cache.blacklist now₂ tokA).isSome =
                  false := by
                rw [hblk, hbl2]; rfl
              by_cases hv2 : now₂ / 1000 < tokA.exp
              · refine ⟨AppError.unauthorized "Invalid refresh token",
                  ?_, rfl⟩
                have hvr : verifyRefreshToken tokA now₂ = Except.ok tokA := by
                  unfold verifyRefreshToken
                  rw [if_pos ⟨hcond.1, hv2⟩]
                have hmiss2 : tget (tdel st1.cache.userById user.id) now₂
                    tokA.id = none := by
                  rw [← hidu]
                  exact tget_tdel_self _ _ _
                have hne : v.refreshToken ≠ some tokA := by
                  rw [hveq]
                  simp only [ne_eq, Option.some.injEq]
                  exact fun hcontra => hnew2 hcontra
                simp [AuthService.refreshToken,
                  AuthRepository.isTokenBlacklisted, hbl3, hvr,
                  AuthRepository.findById, hmiss2, hf2, hne]
              · refine ⟨AppError.unauthorized
                  "Invalid or expired refresh token", ?_, rfl⟩
                have hvr : verifyRefreshToken tokA now₂ =
                    Except.error "jwt invalid or expired" := by
                  unfold verifyRefreshToken
                  rw [if_neg (fun hcc => hv2 hcc.2)]
                simp [AuthService.refreshToken,
                  AuthRepository.isTokenBlacklisted, hbl3, hvr]
        · rw [if_pos (by simpa using hr1)] at h1
          exact absurd h1 (by simp)

def c3Tok : Jwt :=
  { kind := .refresh, id := "u1", email := "a@x.com", role := .USER
    iat := 0, exp := 10000000 }

def c3St0 : SysState := { users := [{ wUser with refreshToken := some c3Tok }] }

/-- Witness for C3: a concrete rotation followed by a reuse attempt. -/
theorem C3_witness :
    ∃ e, (AuthService.refreshToken 2000 c3Tok
        (AuthService.refreshToken 1000 c3Tok c3St0).2).1 =
      Except.error e ∧ e.kind = ErrKind.unauthorized := by
  refine C3_theorem c3St0 1000 2000 c3Tok
    (AuthDto.toLoginResponse { wUser with refreshToken := some c3Tok }
      (generateTokens { id := "u1", email := "a@x.com", role := .USER } 1000))
    (AuthService.refreshToken 1000 c3Tok c3St0).2 ?_ ?_ (by omega) ?_
  · intro e he
    simp [c3St0] at he
  · rfl
  · decide

/-! ## C8 -/

/-- The four credential fields are stripped (spread then overridden with
`undefined` in `AuthDto.toResponse`). -/
def sanitizedUR (r : UserResponse) : Prop :=
  r.password = none ∧ r.otpCode = none ∧ r.otpExpiresAt = none ∧
    r.refreshToken = none

/-- Helper for the sanitization sweep: any successful run of the shared
`convertGuestStage2` tail returns a stripped user representation. -/
theorem convertGuestStage2_sanitized (now : Nat) (emailOk : Bool)
    (otpCode userId : String) (p : ConvertGuestInput) (user : User)
    (st : SysState) (r : LoginResponse) (st' : SysState)
    (h : convertGuestStage2 now emailOk otpCode userId p user st =
      (Except.ok r, st')) : sanitizedUR r.user := by
  unfold convertGuestStage2 at h
  rcases hpr : AuthRepository.updateProfile st userId
      { email := some p.email, password := some p.password
        username := some (jsOr p.username user.username)
        signupMethod := some SignupMethod.EMAIL } with ⟨x, st1⟩
  cases x with
  | error e => simp only [hpr] at h; simp at h
  | ok u0 =>
    simp only [hpr] at h
    cases hu : updateFirst (fun u => decide (u.id = userId))
        (fun u =>
          { u with userType := UserType.REGISTERED, isEmailVerified := false })
        st1.users with
    | none => simp only [hu] at h; simp at h
    | some pr2 =>
      obtain ⟨finalUser, users2⟩ := pr2
      simp only [hu] at h
      rcases hrt : AuthRepository.updateRefreshToken
          { st1 with users := users2 } finalUser.id
          (some (generateTokens
            { id := finalUser.id, email := finalUser.email
              role := finalUser.role } now).refreshToken) with ⟨y, st3⟩
      cases y with
      | error e => simp only [hrt] at h; simp at h
      | ok a =>
        simp only [hrt] at h
        rcases hou : AuthRepository.updateOtp st3 p.email otpCode
            (now + 10 * 60 * 1000) with ⟨z, st4⟩
        cases z with
        | error e => simp only [hou] at h; simp at h
        | ok b =>
          simp only [hou] at h
          cases hse : sendEmail emailOk with
          | ok u2 =>
            rw [hse] at h
            simp only [Prod.mk.injEq, Except.ok.injEq] at h
            obtain ⟨hr, hs⟩ := h
            subst hr
            exact ⟨rfl, rfl, rfl, rfl⟩
          | error m =>
            rw [hse] at h
            simp only [Prod.mk.injEq, Except.ok.injEq] at h
            obtain ⟨hr, hs⟩ := h
            subst hr
            exact ⟨rfl, rfl, rfl, rfl⟩

/-- C8: every success response of the Auth Orchestrator that carries a
user representation carries it with password, otpCode, otpExpiresAt and
refreshToken stripped — signup, login, verifyOtp (login branch),
resetPassword, refreshToken, changePassword, getMe, updateProfile,
googleAuth, guestLogin and convertGuestToRegistered. -/
theorem C8_theorem :
    (∀ now emailOk newId otpCode p st r st',
      AuthService.signup now emailOk newId otpCode p st =
        (Except.ok r, st') → sanitizedUR r.user) ∧
    (∀ now p st r st',
      AuthService.login now p st = (Except.ok r, st') →
        sanitizedUR r.user) ∧
    (∀ now p st r st',
      AuthService.verifyOtp now p st =
        (Except.ok (VerifyOtpResult.loggedIn r), st') →
        sanitizedUR r.user) ∧
    (∀ now p st r st',
      AuthService.resetPassword now p st = (Except.ok r, st') →
        sanitizedUR r.user) ∧
    (∀ now tok st r st',
      AuthService.refreshToken now tok st = (Except.ok r, st') →
        sanitizedUR r.user) ∧
    (∀ now userId p st r st',
      AuthService.changePassword now userId p st = (Except.ok r, st') →
        sanitizedUR r.user) ∧
    (∀ now userId st r st',
      AuthService.getMe now userId st = (Except.ok r, st') →
        sanitizedUR r.user) ∧
    (∀ userId d st r st',
      AuthService.updateProfile userId d st = (Except.ok r, st') →
        sanitizedUR r.user) ∧
    (∀ now fb username newId rp st r st',
      AuthService.googleAuth now fb username newId rp st =
        (Except.ok r, st') → sanitizedUR r.user) ∧
    (∀ now username newId rs rp st r st',
      AuthService.guestLogin now username newId rs rp st =
        (Except.ok r, st') → sanitizedUR r.user) ∧
    (∀ now emailOk otpCode userId p st r st',
      AuthService.convertGuestToRegistered now emailOk otpCode userId p st =
        (Except.ok r, st') → sanitizedUR r.user) := by
  refine ⟨?_, ?_, ?_, ?_, ?_, ?_, ?_, ?_, ?_, ?_, ?_⟩
  · intro now emailOk newId otpCode p st r st' h
    unfold AuthService.signup at h
    repeat' split at h
    all_goals
      first
      | (simp at h; done)
      | (simp only [Prod.mk.injEq, Except.ok.injEq] at h
         obtain ⟨hr, hs⟩ := h
         subst hr
         exact ⟨rfl, rfl, rfl, rfl⟩)
  · intro now p st r st' h
    unfold AuthService.login at h
    cases hfe : AuthRepository.findByEmailWithPassword st p.email with
    | none => rw [hfe] at h; simp at h
    | some user =>
      rw [hfe] at h
      simp only at h
      by_cases h1c : user.isActive = false
      · rw [if_pos h1c] at h; simp at h
      · rw [if_neg h1c] at h
        by_cases h2c : user.isDeleted = true
        · rw [if_pos h2c] at h; simp at h
        · rw [if_neg h2c] at h
          by_cases h3c : comparePassword p.password user.password = false
          · rw [if_pos h3c] at h; simp at h
          · rw [if_neg h3c] at h
            by_cases h4c : user.isEmailVerified = false
            · rw [if_pos h4c] at h; simp at h
            · rw [if_neg h4c] at h
              rcases hup : AuthRepository.updateRefreshToken st user.id
                  (some (generateTokens
                    { id := user.id, email := user.email, role := user.role }
                    now).refreshToken) with ⟨x, st2⟩
              cases x with
              | error e =>
                simp only [hup] at h
                simp at h
              | ok a =>
                simp only [hup, Prod.mk.injEq, Except.ok.injEq] at h
                obtain ⟨hr, hs⟩ := h
                subst hr
                exact ⟨rfl, rfl, rfl, rfl⟩
  · intro now p st r st' h
    unfold AuthService.verifyOtp at h
    cases hg : otpGate st now p.email p.otp p.type with
    | some e => rw [hg] at h; simp at h
    | none =>
      rw [hg] at h
      simp only at h
      cases htype : p.type with
      | forgotPassword =>
        rw [htype] at h
        simp at h
      | emailVerification =>
        rw [htype] at h
        simp only at h
        rcases hve : AuthRepository.verifyEmail st p.email with ⟨x, stA⟩
        cases x with
        | error e => simp only [hve] at h; simp at h
        | ok u =>
          simp only [hve] at h
          rcases hup : AuthRepository.updateRefreshToken
              (AuthRepository.deleteOtpCache stA p.email
                OtpType.emailVerification)
              u.id (some (generateTokens
                { id := u.id, email := u.email, role := u.role }
                now).refreshToken) with ⟨y, stB⟩
          cases y with
          | error e => simp only [hup] at h; simp at h
          | ok a =>
            simp only [hup, Prod.mk.injEq, Except.ok.injEq,
              VerifyOtpResult.loggedIn.injEq] at h
            obtain ⟨hr, hs⟩ := h
            subst hr
            exact ⟨rfl, rfl, rfl, rfl⟩
  · intro now p st r st' h
    unfold AuthService.resetPassword at h
    repeat' split at h
    all_goals
      first
      | (simp at h; done)
      | (simp only [Prod.mk.injEq, Except.ok.injEq] at h
         obtain ⟨hr, hs⟩ := h
         subst hr
         exact ⟨rfl, rfl, rfl, rfl⟩)
  · intro now tok st r st' h
    unfold AuthService.refreshToken at h
    by_cases hbl : AuthRepository.isTokenBlacklisted st now tok = true
    · rw [if_pos hbl] at h; simp at h
    · rw [if_neg hbl] at h
      cases hv : verifyRefreshToken tok now with
      | error m => rw [hv] at h; simp at h
      | ok d =>
        rw [hv] at h
        simp only at h
        rcases hfb : AuthRepository.findById st now d.id with ⟨o, st1⟩
        rw [hfb] at h
        cases o with
        | none => simp at h
        | some user =>
          simp only at h
          by_cases h1c : user.refreshToken ≠ some tok
          · rw [if_pos h1c] at h; simp at h
          · rw [if_neg h1c] at h
            by_cases h2c : user.isActive = false ∨ user.isDeleted = true
            · rw [if_pos h2c] at h; simp at h
            · rw [if_neg h2c] at h
              rcases hup : AuthRepository.updateRefreshToken st1 user.id
                  (some (generateTokens
                    { id := user.id, email := user.email, role := user.role }
                    now).refreshToken) with ⟨x, st2⟩
              cases x with
              | error e => simp only [hup] at h; simp at h
              | ok a =>
                simp only [hup, Prod.mk.injEq, Except.ok.injEq] at h
                obtain ⟨hr, hs⟩ := h
                subst hr
                exact ⟨rfl, rfl, rfl, rfl⟩
  · intro now userId p st r st' h
    unfold AuthService.changePassword at h
    rcases hbid : (AuthRepository.findById st now userId).1 with _ | u0
    all_goals (
      simp only [hbid] at h
      first
      | (cases hfe : AuthRepository.findByEmailWithPassword
            (AuthRepository.findById st now userId).2 "" with
         | none => rw [hfe] at h; simp at h
         | some user =>
           rw [hfe] at h
           simp only at h
           by_cases h1c : user.id ≠ userId
           · rw [if_pos h1c] at h; simp at h
           · rw [if_neg h1c] at h
             by_cases h2c : comparePassword p.currentPassword user.password =
                 false
             · rw [if_pos h2c] at h; simp at h
             · rw [if_neg h2c] at h
               rcases hup : AuthRepository.updatePassword
                   (AuthRepository.findById st now userId).2 user.email
                   (hashPassword p.newPassword) with ⟨x, st2⟩
               cases x with
               | error e => simp only [hup] at h; simp at h
               | ok updated =>
                 simp only [hup, Prod.mk.injEq, Except.ok.injEq] at h
                 obtain ⟨hr, hs⟩ := h
                 subst hr
                 exact ⟨rfl, rfl, rfl, rfl⟩)
      | (cases hfe : AuthRepository.findByEmailWithPassword
            (AuthRepository.findById st now userId).2 u0.email with
         | none => rw [hfe] at h; simp at h
         | some user =>
           rw [hfe] at h
           simp only at h
           by_cases h1c : user.id ≠ userId
           · rw [if_pos h1c] at h; simp at h
           · rw [if_neg h1c] at h
             by_cases h2c : comparePassword p.currentPassword user.password =
                 false
             · rw [if_pos h2c] at h; simp at h
             · rw [if_neg h2c] at h
               rcases hup : AuthRepository.updatePassword
                   (AuthRepository.findById st now userId).2 user.email
                   (hashPassword p.newPassword) with ⟨x, st2⟩
               cases x with
               | error e => simp only [hup] at h; simp at h
               | ok updated =>
                 simp only [hup, Prod.mk.injEq, Except.ok.injEq] at h
                 obtain ⟨hr, hs⟩ := h
                 subst hr
                 exact ⟨rfl, rfl, rfl, rfl⟩))
  · intro now userId st r st' h
    unfold AuthService.getMe at h
    repeat' split at h
    all_goals
      first
      | (simp at h; done)
      | (simp only [Prod.mk.injEq, Except.ok.injEq] at h
         obtain ⟨hr, hs⟩ := h
         subst hr
         exact ⟨rfl, rfl, rfl, rfl⟩)
  · intro userId d st r st' h
    unfold AuthService.updateProfile at h
    repeat' split at h
    all_goals
      first
      | (simp at h; done)
      | (simp only [Prod.mk.injEq, Except.ok.injEq] at h
         obtain ⟨hr, hs⟩ := h
         subst hr
         exact ⟨rfl, rfl, rfl, rfl⟩)
  · intro now fb username newId rp st r st' h
    cases fb with
    | none => unfold AuthService.googleAuth at h; simp at h
    | some f =>
      unfold AuthService.googleAuth at h
      simp only at h
      by_cases h0c : f.email = ""
      · rw [if_pos h0c] at h; simp at h
      · rw [if_neg h0c] at h
        rcases hfe : AuthRepository.findByEmail st now f.email true
          with ⟨o, st1⟩
        rw [hfe] at h
        cases o with
        | some user0 =>
          simp only at h
          by_cases h1c : user0.signupMethod ≠ SignupMethod.GOOGLE
          · rw [if_pos h1c] at h; simp at h
          · rw [if_neg h1c] at h
            rcases hup : (if googleUpdateData f user0 = ({} : ProfileData) then
                  (Except.ok user0, st1)
                else AuthRepository.updateProfile st1 user0.id
                  (googleUpdateData f user0)) with ⟨x, st2⟩
            cases x with
            | error e => simp only [hup] at h; simp at h
            | ok user =>
              simp only [hup] at h
              by_cases h2c : user.isActive = false ∨ user.isDeleted = true
              · rw [if_pos h2c] at h; simp at h
              · rw [if_neg h2c] at h
                rcases hrt : AuthRepository.updateRefreshToken st2 user.id
                    (some (generateTokens
                      { id := user.id, email := user.email, role := user.role }
                      now).refreshToken) with ⟨y, st3⟩
                cases y with
                | error e => simp only [hrt] at h; simp at h
                | ok a =>
                  simp only [hrt, Prod.mk.injEq, Except.ok.injEq] at h
                  obtain ⟨hr, hs⟩ := h
                  subst hr
                  exact ⟨rfl, rfl, rfl, rfl⟩
        | none =>
          simp only at h
          rcases hph : f.phoneNumber with _ | ph <;>
            rcases hpic : f.picture with _ | pic <;>
            simp only [hph, hpic] at h <;>
            repeat' split at h
          all_goals
            first
            | (simp at h; done)
            | (simp only [Prod.mk.injEq, Except.ok.injEq] at h
               obtain ⟨hr, hs⟩ := h
               subst hr
               exact ⟨rfl, rfl, rfl, rfl⟩)
  · intro now username newId rs rp st r st' h
    unfold AuthService.guestLogin at h
    rcases hcr : AuthRepository.create st now newId
        { username := jsOr username ("Guest_" ++ String.mk
            ((toString now).data.drop ((toString now).data.length - 6)))
          email := "guest_" ++ toString now ++ "_" ++ rs ++ "@guest.local"
          password := rp, signupMethod := .EMAIL
          isEmailVerified := some true
          userType := some .GUEST } with ⟨x, st1⟩
    cases x with
    | error e => simp only [hcr] at h; simp at h
    | ok guestUser =>
      simp only [hcr] at h
      rcases hup : AuthRepository.updateRefreshToken st1 guestUser.id
          (some (generateTokens
            { id := guestUser.id, email := guestUser.email
              role := guestUser.role } now).refreshToken) with ⟨y, st2⟩
      cases y with
      | error e => simp only [hup] at h; simp at h
      | ok a =>
        simp only [hup, Prod.mk.injEq, Except.ok.injEq] at h
        obtain ⟨hr, hs⟩ := h
        subst hr
        exact ⟨rfl, rfl, rfl, rfl⟩
  · intro now emailOk otpCode userId p st r st' h
    unfold AuthService.convertGuestToRegistered at h
    rcases hbid : AuthRepository.findById st now userId with ⟨o, st1⟩
    rw [hbid] at h
    cases o with
    | none => simp at h
    | some user =>
      simp only at h
      by_cases h1c : user.userType ≠ UserType.GUEST
      · rw [if_pos h1c] at h; simp at h
      · rw [if_neg h1c] at h
        rcases hfe : AuthRepository.findByEmail st1 now p.email true
          with ⟨o2, st2⟩
        rw [hfe] at h
        cases o2 with
        | none =>
          simp only at h
          exact convertGuestStage2_sanitized now emailOk otpCode userId p user
            st2 r st' h
        | some existing =>
          simp only at h
          by_cases h2c : existing.id ≠ userId
          · rw [if_pos h2c] at h; simp at h
          · rw [if_neg h2c] at h
            exact convertGuestStage2_sanitized now emailOk otpCode userId p
              user st2 r st' h

/-- Witness for C8: a concrete `getMe` success is sanitized. -/
theorem C8_witness : sanitizedUR (AuthDto.toResponse wUser).user :=
  C8_theorem.2.2.2.2.2.2.1 1000 "u1" { users := [wUser] }
    (AuthDto.toResponse wUser) _ rfl
